import Mathlib

/-!
Verification of the ranxoshi256 library (xoshiro256** PRNG, single C header).

The C code is shallowly embedded: `uint64_t` values are natural numbers kept
below `2 ^ 64`, with wraparound made explicit by `% W`; the generator struct
`ranxoshi256 { uint64_t s[4]; }` becomes a four-field structure; each C
function that mutates the struct becomes a pure function returning the new
state (paired with the returned word where the C function returns one).
-/

namespace Ranxoshi

/-- `2 ^ 64`, the modulus of `uint64_t` arithmetic. -/
def W : Nat := 2 ^ 64

/-- Embedding of `ranxoshi256Rotate(uint64_t x, int k)`:
`(x << k) | (x >> (64 - k))` in `uint64_t` arithmetic, i.e. the left shift is
truncated to 64 bits and the two parts are OR-ed. -/
def ranxoshi256Rotate (x k : Nat) : Nat :=
  ((x <<< k) % W) ||| (x >>> (64 - k))

/-- Embedding of `struct ranxoshi256 { uint64_t s[4]; }`; the array cells
`s[0] .. s[3]` become the fields `s0 .. s3`. -/
structure Ranxoshi256 where
  s0 : Nat
  s1 : Nat
  s2 : Nat
  s3 : Nat
deriving DecidableEq, Repr

/-- Well-formed state: every word is a `uint64_t` value. -/
def Wf (c : Ranxoshi256) : Prop :=
  c.s0 < W ∧ c.s1 < W ∧ c.s2 < W ∧ c.s3 < W

instance (c : Ranxoshi256) : Decidable (Wf c) := by
  unfold Wf; infer_instance

/-- Embedding of `ranxoshi256Next`: the returned word and the state after the
call.  The shadowing `let`s mirror the C sequence of in-place updates
`s2 ^= s0; s3 ^= s1; s1 ^= s2; s0 ^= s3; s2 ^= t; s3 = rotate(s3, 45)`. -/
def ranxoshi256Next (ctx : Ranxoshi256) : Nat × Ranxoshi256 :=
  let res := (ranxoshi256Rotate ((ctx.s1 * 5) % W) 7 * 9) % W
  let t := (ctx.s1 <<< 17) % W
  let s2 := ctx.s2 ^^^ ctx.s0
  let s3 := ctx.s3 ^^^ ctx.s1
  let s1 := ctx.s1 ^^^ s2
  let s0 := ctx.s0 ^^^ s3
  let s2 := s2 ^^^ t
  let s3 := ranxoshi256Rotate s3 45
  (res, ⟨s0, s1, s2, s3⟩)

/-- The state-transition part of `ranxoshi256Next`. -/
def nextState (ctx : Ranxoshi256) : Ranxoshi256 :=
  (ranxoshi256Next ctx).2

/-- The word returned by `ranxoshi256Next`. -/
def nextOut (ctx : Ranxoshi256) : Nat :=
  (ranxoshi256Next ctx).1

/-- One 64-bit word of `ranxoshi256Seed`: word `i` is assembled from seed
bytes `8 i .. 8 i + 7` exactly as in the C source,
`((uint64_t)s[i*8] << 56) | ... | (uint64_t)s[i*8+7]`. -/
def seedWord (s : Fin 32 → Nat) (i : Fin 4) : Nat :=
  (s ⟨i.val * 8, by omega⟩ <<< 56) ||| (s ⟨i.val * 8 + 1, by omega⟩ <<< 48) |||
  (s ⟨i.val * 8 + 2, by omega⟩ <<< 40) ||| (s ⟨i.val * 8 + 3, by omega⟩ <<< 32) |||
  (s ⟨i.val * 8 + 4, by omega⟩ <<< 24) ||| (s ⟨i.val * 8 + 5, by omega⟩ <<< 16) |||
  (s ⟨i.val * 8 + 6, by omega⟩ <<< 8) ||| s ⟨i.val * 8 + 7, by omega⟩

/-- Embedding of `ranxoshi256Seed(ctx, s)`: the 32 seed bytes (each `< 256`)
overwrite the whole state; the previous state `_ctx` is not read. -/
def ranxoshi256Seed (_ctx : Ranxoshi256) (s : Fin 32 → Nat) : Ranxoshi256 :=
  ⟨seedWord s 0, seedWord s 1, seedWord s 2, seedWord s 3⟩

/-- Embedding of `ranxoshi256FloatCO`: `(float)(next >> 40) / 16777216.0f`.
The numerator is below `2 ^ 24`, so every quantity is exactly representable in
IEEE single precision and the division is exact; the value is modelled as the
exact rational. -/
def ranxoshi256FloatCO (ctx : Ranxoshi256) : ℚ × Ranxoshi256 :=
  let r := ranxoshi256Next ctx
  (((r.1 >>> 40 : Nat) : ℚ) / 16777216, r.2)

/-- Embedding of `ranxoshi256FloatCC`: `(float)(next >> 32) / (float)UINT32_MAX`,
modelled as the exact rational `(next >>> 32) / (2 ^ 32 - 1)`. -/
def ranxoshi256FloatCC (ctx : Ranxoshi256) : ℚ × Ranxoshi256 :=
  let r := ranxoshi256Next ctx
  (((r.1 >>> 32 : Nat) : ℚ) / 4294967295, r.2)

/-- Embedding of `ranxoshi256DoubleCO`: `(double)(next >> 11) / 9007199254740992.0`.
The numerator is below `2 ^ 53`, so the IEEE double computation is exact and is
modelled as the exact rational. -/
def ranxoshi256DoubleCO (ctx : Ranxoshi256) : ℚ × Ranxoshi256 :=
  let r := ranxoshi256Next ctx
  (((r.1 >>> 11 : Nat) : ℚ) / 9007199254740992, r.2)

/-- Embedding of `ranxoshi256DoubleCC`: `(double)next / (double)UINT64_MAX`,
modelled as the exact rational `next / (2 ^ 64 - 1)`. -/
def ranxoshi256DoubleCC (ctx : Ranxoshi256) : ℚ × Ranxoshi256 :=
  let r := ranxoshi256Next ctx
  (((r.1 : Nat) : ℚ) / 18446744073709551615, r.2)

/-- The four jump-polynomial constants, in the order of the C array
`static const uint64_t jump[]`. -/
def jumpConsts : List Nat :=
  [0x180EC6D33CFD0ABA, 0xD5A61266F0C9392C, 0xA9582618E03FC9AA, 0x39ABDC4529B1661C]

/-- Componentwise XOR of states (used for the jump accumulator `s0 ^= ctx->s[0]`
etc. and throughout the linear-algebra development). -/
def sxor (a b : Ranxoshi256) : Ranxoshi256 :=
  ⟨a.s0 ^^^ b.s0, a.s1 ^^^ b.s1, a.s2 ^^^ b.s2, a.s3 ^^^ b.s3⟩

/-- The all-zero state. -/
def szero : Ranxoshi256 := ⟨0, 0, 0, 0⟩

/-- Embedding of `ranxoshi256Jump`: the accumulator `(s0,s1,s2,s3)` starts at
zero; for each constant and each bit index `b` from `0` to `63`, when
`jump[i] & (uint64_t)1 << b` is nonzero the accumulator is XOR-ed with the
current state, and `ranxoshi256Next` is called unconditionally; finally the
state is overwritten with the accumulator. -/
def ranxoshi256Jump (ctx : Ranxoshi256) : Ranxoshi256 :=
  (jumpConsts.foldl (fun (p : Ranxoshi256 × Ranxoshi256) c =>
    (List.range 64).foldl (fun (q : Ranxoshi256 × Ranxoshi256) b =>
      (if c &&& (1 <<< b) ≠ 0 then sxor q.1 q.2 else q.1, nextState q.2)) p)
    (szero, ctx)).1

/-- The word produced by the `n`-th call of `ranxoshi256Next` (0-based) when
starting from state `c`. -/
def outAt (c : Ranxoshi256) (n : Nat) : Nat :=
  nextOut (nextState^[n] c)

/-- The first `n` words produced from state `c`. -/
def firstOutputs (n : Nat) (c : Ranxoshi256) : List Nat :=
  (List.range n).map (outAt c)

/-- The 64-bit integer formed from eight bytes interpreted big-endian, written
as the positional sum the spec describes (byte `8 i` is the most significant
byte of word `i`).  This is the spec-side definition compared against the
source's shift/OR assembly. -/
def beWord (s : Fin 32 → Nat) (i : Fin 4) : Nat :=
  s ⟨i.val * 8, by omega⟩ * 72057594037927936 + s ⟨i.val * 8 + 1, by omega⟩ * 281474976710656 +
  s ⟨i.val * 8 + 2, by omega⟩ * 1099511627776 + s ⟨i.val * 8 + 3, by omega⟩ * 4294967296 +
  s ⟨i.val * 8 + 4, by omega⟩ * 16777216 + s ⟨i.val * 8 + 5, by omega⟩ * 65536 +
  s ⟨i.val * 8 + 6, by omega⟩ * 256 + s ⟨i.val * 8 + 7, by omega⟩

/-- The state used to reach the upper endpoint of the closed-closed ranges: its
`s1` makes the next raw word equal to `2 ^ 64 - 1`. -/
def smax : Ranxoshi256 := ⟨0, 0x4FC71C71C71C71C7, 0, 0⟩

/-- The array word `s[i]` of a state, indexed by a natural number as the C
loops do. -/
def wordAt (c : Ranxoshi256) : Nat → Nat
  | 0 => c.s0
  | 1 => c.s1
  | 2 => c.s2
  | _ => c.s3

/-- The 32 bytes that big-endian-decode a state; the right inverse of
`ranxoshi256Seed`. -/
def seedBytes (c : Ranxoshi256) : Fin 32 → Nat :=
  fun j => wordAt c (j.val / 8) / 2 ^ (8 * (7 - j.val % 8)) % 256

/-- The inner `for (b = 0; b < 64; b++)` loop of `ranxoshi256Jump` over one
jump constant `c`, acting on the (accumulator, state) pair. -/
def jumpConstLoop (c : Nat) (q : Ranxoshi256 × Ranxoshi256) : Ranxoshi256 × Ranxoshi256 :=
  (List.range 64).foldl (fun (q : Ranxoshi256 × Ranxoshi256) b =>
    (if c &&& (1 <<< b) ≠ 0 then sxor q.1 q.2 else q.1, nextState q.2)) q

/-- A bit-serial loop over one 64-bit jump constant, processing bits from the
least significant upward exactly as the spec words it: if the bit is set, XOR
the accumulator with the current state; then unconditionally advance the state
by one `ranxoshi256Next` call.  Used as the spec-side reference for the jump
loop and for the linear-algebra development. -/
def jumpBitLoop : Nat → Nat → Ranxoshi256 → Ranxoshi256 → Ranxoshi256 × Ranxoshi256
  | 0, _, acc, st => (acc, st)
  | n+1, c, acc, st =>
      jumpBitLoop n (c / 2) (if c % 2 = 1 then sxor acc st else acc) (nextState st)

/-- `jumpBitLoop` acting on an (accumulator, state) pair. -/
def jumpBitLoopP (n c : Nat) (q : Ranxoshi256 × Ranxoshi256) : Ranxoshi256 × Ranxoshi256 :=
  jumpBitLoop n c q.1 q.2

/-- The jump algorithm as the spec describes it: accumulator starts at zero;
for each of the four constants in order, process its 64 bits LSB-first with
`jumpBitLoop`; finally the accumulator replaces the state. -/
def jumpSpec (ctx : Ranxoshi256) : Ranxoshi256 :=
  (jumpConsts.foldl (fun (p : Ranxoshi256 × Ranxoshi256) c =>
    jumpBitLoopP 64 c p) (szero, ctx)).1

/-- Evaluation of a polynomial (a bit set at position `j` stands for the
monomial `x ^ j`) at the state-transition map, applied to a state: the XOR of
`nextState^[j] st` over all set bits `j`.  The first argument is fuel, one
unit per processed bit. -/
def polyEvalAux : Nat → Nat → Ranxoshi256 → Ranxoshi256
  | 0, _, _ => szero
  | n+1, p, st => sxor (if p % 2 = 1 then st else szero) (polyEvalAux n (p / 2) (nextState st))

/-- Carry-less (GF(2)) multiplication of the polynomial `p` (fuel-bounded) by
the polynomial `q`. -/
def clmulAux : Nat → Nat → Nat → Nat
  | 0, _, _ => 0
  | n+1, p, q => (if p % 2 = 1 then q else 0) ^^^ 2 * clmulAux n (p / 2) q

/-- The characteristic polynomial of the xoshiro256** state transition over
GF(2) (degree 256); below it is verified, by computation on the 256 basis
states, to annihilate `nextState`. -/
def mPoly : Nat := 0x10003C03C3F3ECB1904B4EDCF26259F850280002BCEFD1A5E9D116F2BB0F0F001

/-- Reduction of a polynomial of degree below `257 + fuel` modulo `mPoly`:
each step clears the top candidate bit by XOR-ing a shifted copy of `mPoly`. -/
def polyReduce : Nat → Nat → Nat
  | 0, a => if (a >>> 256) % 2 = 1 then a ^^^ mPoly else a
  | f+1, a => polyReduce f (if (a >>> (257 + f)) % 2 = 1 then a ^^^ (mPoly <<< (f + 1)) else a)

/-- One modular squaring step: `r ^ 2 mod mPoly`. -/
def jsq (r : Nat) : Nat := polyReduce 257 (clmulAux 257 r r)

/-- `x ^ (2 ^ k) mod mPoly`, by repeated squaring starting from `x`. -/
def jchain : Nat → Nat
  | 0 => 2
  | k+1 => jsq (jchain k)

/-- The four jump constants concatenated into one 256-bit polynomial
(constant `i` occupies bits `64 i .. 64 i + 63`). -/
def jpoly : Nat := 0x39ABDC4529B1661CA9582618E03FC9AAD5A61266F0C9392C180EC6D33CFD0ABA

/-- `true` iff `t` differs from every state `nextState^[k] c` for `k ≤ n`. -/
def distinctFromIterates : Ranxoshi256 → Ranxoshi256 → Nat → Bool
  | t, c, 0 => !(decide (t = c))
  | t, c, n+1 => (!(decide (t = c))) && distinctFromIterates t (nextState c) n

/-- The reference state obtained from the seed bytes `0x00 .. 0x1F`. -/
def stRef : Ranxoshi256 :=
  ⟨0x0001020304050607, 0x08090A0B0C0D0E0F, 0x1011121314151617, 0x18191A1B1C1D1E1F⟩

/-- The concatenation of a list of 64-bit constants into one polynomial,
64 bits per constant, the head in the low bits. -/
def concatPoly : List Nat → Nat
  | [] => 0
  | c :: rest => (c % 2 ^ 64) ^^^ (concatPoly rest <<< 64)

/-! ### Generic lemmas about `Nat` bit operations -/

lemma lor_eq_xor {a b : Nat} (h : a &&& b = 0) : a ||| b = a ^^^ b := by
  apply Nat.eq_of_testBit_eq
  intro i
  have hb := congrArg (fun x => Nat.testBit x i) h
  simp only [Nat.testBit_and, Nat.zero_testBit] at hb
  simp only [Nat.testBit_or, Nat.testBit_xor]
  cases hx : Nat.testBit a i <;> cases hy : Nat.testBit b i <;> simp_all

lemma shiftLeft_or_eq_add {b k : Nat} (a : Nat) (hb : b < 2 ^ k) :
    (a <<< k) ||| b = a * 2 ^ k + b := by
  rw [Nat.shiftLeft_eq, mul_comm a (2 ^ k), ← Nat.mul_add_lt_is_or hb, mul_comm]

lemma xor_shiftLeft (x y k : Nat) : (x ^^^ y) <<< k = (x <<< k) ^^^ (y <<< k) := by
  apply Nat.eq_of_testBit_eq
  intro i
  simp only [Nat.testBit_shiftLeft, Nat.testBit_xor]
  cases h : decide (k ≤ i) <;> simp

lemma xor_shiftRight (x y k : Nat) : (x ^^^ y) >>> k = (x >>> k) ^^^ (y >>> k) := by
  apply Nat.eq_of_testBit_eq
  intro i
  simp only [Nat.testBit_shiftRight, Nat.testBit_xor]

lemma xor_mod_two_pow (x y n : Nat) : (x ^^^ y) % 2 ^ n = (x % 2 ^ n) ^^^ (y % 2 ^ n) := by
  apply Nat.eq_of_testBit_eq
  intro i
  simp only [Nat.testBit_mod_two_pow, Nat.testBit_xor]
  cases h : decide (i < n) <;> simp

lemma xor_left_comm (a b c : Nat) : a ^^^ (b ^^^ c) = b ^^^ (a ^^^ c) := by
  rw [← Nat.xor_assoc, Nat.xor_comm a b, Nat.xor_assoc]

/-! ### The rotation helper -/

lemma rotate_parts_disjoint {x : Nat} (k : Nat) (hx : x < W) :
    ((x <<< k) % W) &&& (x >>> (64 - k)) = 0 := by
  apply Nat.eq_of_testBit_eq
  intro i
  simp only [W] at hx ⊢
  simp only [Nat.testBit_and, Nat.testBit_mod_two_pow, Nat.testBit_shiftLeft,
    Nat.testBit_shiftRight, Nat.zero_testBit]
  by_cases h1 : 64 - k + i < 64
  · have h2 : ¬ (k ≤ i) := by omega
    simp [h2]
  · have h2 : x.testBit (64 - k + i) = false :=
      Nat.testBit_lt_two_pow (lt_of_lt_of_le hx (pow_le_pow_right₀ (by norm_num) (by omega)))
    simp [h2]

lemma rotate_eq_xor {x : Nat} (k : Nat) (hx : x < W) :
    ranxoshi256Rotate x k = ((x <<< k) % W) ^^^ (x >>> (64 - k)) :=
  lor_eq_xor (rotate_parts_disjoint k hx)

lemma rotate_lt {x : Nat} (k : Nat) (hx : x < W) : ranxoshi256Rotate x k < W := by
  apply Nat.or_lt_two_pow
  · exact Nat.mod_lt _ (by simp [W])
  · rw [Nat.shiftRight_eq_div_pow]
    exact lt_of_le_of_lt (Nat.div_le_self _ _) hx

lemma xor_mod_W (x y : Nat) : (x ^^^ y) % W = (x % W) ^^^ (y % W) := by
  simp only [W]
  exact xor_mod_two_pow x y 64

lemma xor_lt_W {x y : Nat} (hx : x < W) (hy : y < W) : x ^^^ y < W := by
  simp only [W] at hx hy ⊢
  exact Nat.xor_lt_two_pow hx hy

lemma rotate_xor_distrib {x y : Nat} (k : Nat) (hx : x < W) (hy : y < W) :
    ranxoshi256Rotate (x ^^^ y) k = ranxoshi256Rotate x k ^^^ ranxoshi256Rotate y k := by
  rw [rotate_eq_xor k (xor_lt_W hx hy), rotate_eq_xor k hx, rotate_eq_xor k hy,
    xor_shiftLeft, xor_mod_W, xor_shiftRight]
  simp only [Nat.xor_assoc, Nat.xor_comm, xor_left_comm]

lemma rotate_eq_of_lt {x k : Nat} (hx : x < W) (hk1 : 0 < k) (hk2 : k < 64) :
    ranxoshi256Rotate x k = (x % 2 ^ (64 - k)) * 2 ^ k + x / 2 ^ (64 - k) := by
  unfold ranxoshi256Rotate
  have h64 : W = 2 ^ (64 - k) * 2 ^ k := by rw [W, ← pow_add]; congr 1; omega
  have hd : x / 2 ^ (64 - k) < 2 ^ k := by
    rw [Nat.div_lt_iff_lt_mul (Nat.pos_pow_of_pos _ (by norm_num)), mul_comm, ← h64]
    exact hx
  have hor := shiftLeft_or_eq_add (x % 2 ^ (64 - k)) hd
  rw [Nat.shiftLeft_eq] at hor
  rw [Nat.shiftLeft_eq, Nat.shiftRight_eq_div_pow, h64, Nat.mul_mod_mul_right, hor]

/-! ### Well-formedness is preserved -/

lemma W_pos : 0 < W := by simp [W]

lemma mod_W_lt (x : Nat) : x % W < W := Nat.mod_lt _ W_pos

lemma nextOut_lt (c : Ranxoshi256) : nextOut c < W := mod_W_lt _

lemma nextState_wf {c : Ranxoshi256} (h : Wf c) : Wf (nextState c) := by
  obtain ⟨h0, h1, h2, h3⟩ := h
  refine ⟨xor_lt_W h0 (xor_lt_W h3 h1), xor_lt_W h1 (xor_lt_W h2 h0),
    xor_lt_W (xor_lt_W h2 h0) (mod_W_lt _), rotate_lt 45 (xor_lt_W h3 h1)⟩

lemma iterate_nextState_wf {c : Ranxoshi256} (n : Nat) (h : Wf c) : Wf (nextState^[n] c) := by
  induction n generalizing c with
  | zero => exact h
  | succ n ih => rw [Function.iterate_succ_apply]; exact ih (nextState_wf h)

/-! ### C1: the next-word recurrence in closed form -/

/-- C1: `ranxoshi256Next` returns `rotate_left(s1 * 5, 7) * 9` computed from the
pre-update `s1` (with 64-bit wraparound), and the sequential updates
`s2 ^= s0; s3 ^= s1; s1 ^= s2; s0 ^= s3; s2 ^= t; s3 = rotate_left(s3, 45)`
produce exactly the state whose words are the closed forms below: the output is
derived before any state mutation, and only `s3`'s rotation happens after the
cross-XORs. -/
theorem next_closed_form (ctx : Ranxoshi256) :
    ranxoshi256Next ctx =
      ((ranxoshi256Rotate ((ctx.s1 * 5) % W) 7 * 9) % W,
        ⟨ctx.s0 ^^^ (ctx.s3 ^^^ ctx.s1),
         ctx.s1 ^^^ (ctx.s2 ^^^ ctx.s0),
         (ctx.s2 ^^^ ctx.s0) ^^^ ((ctx.s1 <<< 17) % W),
         ranxoshi256Rotate (ctx.s3 ^^^ ctx.s1) 45⟩) := rfl

/-! ### C2: big-endian seeding -/

lemma be_or_eq_sum (b0 b1 b2 b3 b4 b5 b6 b7 : Nat) (h0 : b0 < 256) (h1 : b1 < 256)
    (h2 : b2 < 256) (h3 : b3 < 256) (h4 : b4 < 256) (h5 : b5 < 256) (h6 : b6 < 256)
    (h7 : b7 < 256) :
    (b0 <<< 56) ||| (b1 <<< 48) ||| (b2 <<< 40) ||| (b3 <<< 32) ||| (b4 <<< 24) |||
      (b5 <<< 16) ||| (b6 <<< 8) ||| b7
    = b0 * 72057594037927936 + b1 * 281474976710656 + b2 * 1099511627776 +
      b3 * 4294967296 + b4 * 16777216 + b5 * 65536 + b6 * 256 + b7 := by
  simp only [Nat.or_assoc]
  rw [shiftLeft_or_eq_add b6 (by omega)]
  rw [shiftLeft_or_eq_add b5 (by omega)]
  rw [shiftLeft_or_eq_add b4 (by omega)]
  rw [shiftLeft_or_eq_add b3 (by omega)]
  rw [shiftLeft_or_eq_add b2 (by omega)]
  rw [shiftLeft_or_eq_add b1 (by omega)]
  rw [shiftLeft_or_eq_add b0 (by omega)]
  omega

lemma seedWord_eq_beWord (s : Fin 32 → Nat) (hs : ∀ j, s j < 256) (i : Fin 4) :
    seedWord s i = beWord s i := by
  unfold seedWord beWord
  exact be_or_eq_sum _ _ _ _ _ _ _ _ (hs _) (hs _) (hs _) (hs _) (hs _) (hs _) (hs _) (hs _)

/-- C2: for every 32-byte seed, `ranxoshi256Seed` sets word `i` to the 64-bit
integer formed from seed bytes `8 i .. 8 i + 7` interpreted big-endian, and the
result depends on the seed bytes only (the prior state `ctx` is irrelevant;
the embedding has no host byte order at all, so the mapping is a pure function
of the byte values). -/
theorem seed_big_endian (ctx ctx2 : Ranxoshi256) (s : Fin 32 → Nat) (hs : ∀ j, s j < 256) :
    ranxoshi256Seed ctx s = ⟨beWord s 0, beWord s 1, beWord s 2, beWord s 3⟩ ∧
    ranxoshi256Seed ctx s = ranxoshi256Seed ctx2 s := by
  refine ⟨?_, rfl⟩
  unfold ranxoshi256Seed
  rw [seedWord_eq_beWord s hs, seedWord_eq_beWord s hs, seedWord_eq_beWord s hs,
    seedWord_eq_beWord s hs]

/-- Witness for C2 at the concrete seed bytes `0, 1, ..., 31`. -/
theorem seed_big_endian_witness :
    ranxoshi256Seed szero (fun j => j.val) =
      ⟨0x0001020304050607, 0x08090A0B0C0D0E0F, 0x1011121314151617, 0x18191A1B1C1D1E1F⟩ := by
  rw [(seed_big_endian szero szero (fun j => j.val)
    (fun j => lt_of_lt_of_le j.isLt (by norm_num))).1]
  decide

/-! ### C9: rotation round-trip -/

/-- C9: for every 64-bit value `x` and every `k` in `[1, 63]`,
`ranxoshi256Rotate (ranxoshi256Rotate x k) (64 - k) = x`. -/
theorem rotate_round_trip (x k : Nat) (hx : x < W) (hk1 : 1 ≤ k) (hk2 : k ≤ 63) :
    ranxoshi256Rotate (ranxoshi256Rotate x k) (64 - k) = x := by
  have hm : 0 < 64 - k := by omega
  have hm2 : 64 - k < 64 := by omega
  have hA : (0:Nat) < 2 ^ (64 - k) := Nat.pos_pow_of_pos _ (by norm_num)
  have hB : (0:Nat) < 2 ^ k := Nat.pos_pow_of_pos _ (by norm_num)
  have hprod : 2 ^ (64 - k) * 2 ^ k = W := by rw [← pow_add, W]; congr 1; omega
  have hmod : x % 2 ^ (64 - k) < 2 ^ (64 - k) := Nat.mod_lt _ hA
  have hdiv : x / 2 ^ (64 - k) < 2 ^ k := by
    rw [Nat.div_lt_iff_lt_mul hA, mul_comm, hprod]
    exact hx
  have hy : x % 2 ^ (64 - k) * 2 ^ k + x / 2 ^ (64 - k) < W := by
    have h1 : x % 2 ^ (64 - k) * 2 ^ k ≤ (2 ^ (64 - k) - 1) * 2 ^ k :=
      Nat.mul_le_mul_right _ (by omega)
    have h2 : (2 ^ (64 - k) - 1) * 2 ^ k = 2 ^ (64 - k) * 2 ^ k - 2 ^ k := by
      rw [Nat.sub_mul, one_mul]
    have h3 : 2 ^ k ≤ 2 ^ (64 - k) * 2 ^ k := Nat.le_mul_of_pos_left _ hA
    omega
  rw [rotate_eq_of_lt hx hk1 (by omega), rotate_eq_of_lt hy hm (by omega)]
  have hsub : 64 - (64 - k) = k := by omega
  rw [hsub, mul_comm (x % 2 ^ (64 - k)) (2 ^ k), Nat.mul_add_mod, Nat.mod_eq_of_lt hdiv,
    Nat.mul_add_div hB, Nat.div_eq_of_lt hdiv, Nat.add_zero, mul_comm]
  exact Nat.div_add_mod x (2 ^ (64 - k))

/-- Witness for C9 at `x = 0xAAAAAAAAAAAAAAAA`, `k = 7`. -/
theorem rotate_round_trip_witness :
    ranxoshi256Rotate (ranxoshi256Rotate 0xAAAAAAAAAAAAAAAA 7) 57 = 0xAAAAAAAAAAAAAAAA := by
  have h := rotate_round_trip 0xAAAAAAAAAAAAAAAA 7 (by decide) (by decide) (by decide)
  simpa using h

/-! ### C8: determinism as a two-run property -/

/-- C8: two generators seeded with the same 32 bytes produce identical first
10,000 outputs (the embedding is a pure function of the seed, whatever the
prior states were), and `ranxoshi256Jump` applied to two generators with
identical state produces identical state. -/
theorem two_run_determinism (g1 g2 : Ranxoshi256) (s : Fin 32 → Nat) :
    firstOutputs 10000 (ranxoshi256Seed g1 s) = firstOutputs 10000 (ranxoshi256Seed g2 s) ∧
    ∀ d1 d2 : Ranxoshi256, d1 = d2 → ranxoshi256Jump d1 = ranxoshi256Jump d2 :=
  ⟨rfl, fun _ _ h => by rw [h]⟩

/-- Witness for C8 at two distinct prior states and the all-zero seed. -/
theorem two_run_determinism_witness :
    firstOutputs 10000 (ranxoshi256Seed szero (fun _ => 0)) =
      firstOutputs 10000 (ranxoshi256Seed ⟨1, 2, 3, 4⟩ (fun _ => 0)) ∧
    ranxoshi256Jump szero = ranxoshi256Jump szero :=
  ⟨(two_run_determinism szero ⟨1, 2, 3, 4⟩ (fun _ => 0)).1,
    (two_run_determinism szero szero (fun _ => 0)).2 szero szero rfl⟩

/-! ### C5: the degenerate all-zero seed -/

lemma coprime_W_9 : Nat.Coprime W 9 := Nat.Coprime.pow_left 64 (by decide)

lemma coprime_W_5 : Nat.Coprime W 5 := Nat.Coprime.pow_left 64 (by decide)

lemma rotate_eq_zero {x k : Nat} (hx : x < W) (hk1 : 0 < k) (hk2 : k < 64)
    (h : ranxoshi256Rotate x k = 0) : x = 0 := by
  rw [rotate_eq_of_lt hx hk1 hk2] at h
  obtain ⟨ha, hb⟩ := Nat.add_eq_zero.mp h
  have hm : x % 2 ^ (64 - k) = 0 := by
    rcases Nat.mul_eq_zero.mp ha with h' | h'
    · exact h'
    · exact absurd h' (Nat.pos_pow_of_pos _ (by norm_num)).ne'
  have hd : x < 2 ^ (64 - k) :=
    (Nat.div_eq_zero_iff (Nat.pos_pow_of_pos _ (by norm_num))).mp hb
  rw [Nat.mod_eq_of_lt hd] at hm
  exact hm

lemma out_zero_imp_s1_zero {c : Ranxoshi256} (h1 : c.s1 < W) (h : nextOut c = 0) :
    c.s1 = 0 := by
  have h' : (ranxoshi256Rotate ((c.s1 * 5) % W) 7 * 9) % W = 0 := h
  have hlt : ranxoshi256Rotate ((c.s1 * 5) % W) 7 < W := rotate_lt 7 (mod_W_lt _)
  have hdvd : W ∣ ranxoshi256Rotate ((c.s1 * 5) % W) 7 * 9 := Nat.dvd_of_mod_eq_zero h'
  have hz : ranxoshi256Rotate ((c.s1 * 5) % W) 7 = 0 :=
    Nat.eq_zero_of_dvd_of_lt (coprime_W_9.dvd_of_dvd_mul_right hdvd) hlt
  have hz2 : (c.s1 * 5) % W = 0 := rotate_eq_zero (mod_W_lt _) (by norm_num) (by norm_num) hz
  have hdvd2 : W ∣ c.s1 * 5 := Nat.dvd_of_mod_eq_zero hz2
  exact Nat.eq_zero_of_dvd_of_lt (coprime_W_5.dvd_of_dvd_mul_right hdvd2) h1

lemma nextState_p00q (p q : Nat) :
    nextState ⟨p, 0, 0, q⟩ = ⟨p ^^^ q, p, p, ranxoshi256Rotate q 45⟩ := by
  show (ranxoshi256Next _).2 = _
  rw [next_closed_form]
  simp

lemma nextState_szero : nextState szero = szero := by decide

lemma iterate_szero (n : Nat) : nextState^[n] szero = szero := by
  induction n with
  | zero => rfl
  | succ n ih => rw [Function.iterate_succ_apply, nextState_szero, ih]

lemma outAt_szero (n : Nat) : outAt szero n = 0 := by
  rw [outAt, iterate_szero]
  decide

lemma all_out_zero_imp_szero {c : Ranxoshi256} (hw : Wf c) (h : ∀ n, outAt c n = 0) :
    c = szero := by
  obtain ⟨a, b, c2, d⟩ := c
  obtain ⟨h0, h1, h2, h3⟩ := hw
  have e0 : b = 0 := out_zero_imp_s1_zero h1 (h 0)
  subst e0
  have hst1 : nextState ⟨a, 0, c2, d⟩ =
      ⟨a ^^^ d, c2 ^^^ a, c2 ^^^ a, ranxoshi256Rotate d 45⟩ := by
    show (ranxoshi256Next _).2 = _
    rw [next_closed_form]
    simp
  have hout1 := h 1
  rw [outAt, Function.iterate_one, hst1] at hout1
  have e1 : c2 ^^^ a = 0 := out_zero_imp_s1_zero (xor_lt_W h2 h0) hout1
  have hst1' : nextState ⟨a, 0, c2, d⟩ = ⟨a ^^^ d, 0, 0, ranxoshi256Rotate d 45⟩ := by
    rw [hst1, e1]
  have hout2 := h 2
  rw [outAt, show nextState^[2] (⟨a, 0, c2, d⟩ : Ranxoshi256) =
    nextState (nextState ⟨a, 0, c2, d⟩) from rfl, hst1', nextState_p00q] at hout2
  have e2 : a ^^^ d = 0 := out_zero_imp_s1_zero (xor_lt_W h0 h3) hout2
  have hst1'' : nextState ⟨a, 0, c2, d⟩ = ⟨0, 0, 0, ranxoshi256Rotate d 45⟩ := by
    rw [hst1', e2]
  have hout3 := h 3
  rw [outAt, show nextState^[3] (⟨a, 0, c2, d⟩ : Ranxoshi256) =
    nextState (nextState (nextState ⟨a, 0, c2, d⟩)) from rfl, hst1'', nextState_p00q,
    nextState_p00q] at hout3
  have e3' : (0 : Nat) ^^^ ranxoshi256Rotate d 45 = 0 :=
    out_zero_imp_s1_zero (by simpa using rotate_lt 45 h3) hout3
  have e3 : ranxoshi256Rotate d 45 = 0 := by simpa using e3'
  have ed : d = 0 := rotate_eq_zero h3 (by norm_num) (by norm_num) e3
  have ea : a = 0 := (Nat.xor_eq_zero.mp e2).trans ed
  have ec : c2 = 0 := (Nat.xor_eq_zero.mp e1).trans ea
  rw [ea, ec, ed]
  rfl

/-- C5: seeding with 32 all-zero bytes produces the all-zero state; from the
all-zero state every later state is all-zero and every output word is `0`; and
for a well-formed state the outputs are all zero forever if and only if the
full 256-bit state is zero. -/
theorem degenerate_zero :
    (∀ ctx : Ranxoshi256, ranxoshi256Seed ctx (fun _ => 0) = szero) ∧
    (∀ n : Nat, nextState^[n] szero = szero ∧ outAt szero n = 0) ∧
    (∀ c : Ranxoshi256, Wf c → ((∀ n, outAt c n = 0) ↔ c = szero)) := by
  refine ⟨fun ctx => rfl, fun n => ⟨iterate_szero n, outAt_szero n⟩, fun c hw => ?_⟩
  constructor
  · exact all_out_zero_imp_szero hw
  · rintro rfl n
    exact outAt_szero n

/-- Witness for C5: the degenerate facts at the all-zero state itself. -/
theorem degenerate_zero_witness :
    outAt szero 7 = 0 ∧ ((∀ n, outAt szero n = 0) ↔ szero = szero) :=
  ⟨(degenerate_zero.2.1 7).2, degenerate_zero.2.2 szero (by decide)⟩

/-! ### C6, C7: floating-point conversions (modelled as exact rationals) -/

lemma shiftRight_lt_of_lt_W {x : Nat} (k : Nat) (hx : x < W) : x >>> k < 2 ^ (64 - k) := by
  rw [Nat.shiftRight_eq_div_pow, Nat.div_lt_iff_lt_mul (Nat.pos_pow_of_pos _ (by norm_num)),
    ← pow_add]
  exact lt_of_lt_of_le hx (pow_le_pow_right₀ (by norm_num) (by omega))

/-- C6: `ranxoshi256FloatCO` is (the raw word shifted right by 40, i.e. its top
24 bits) divided by `16777216 = 2 ^ 24`, and `ranxoshi256DoubleCO` is (the raw
word shifted right by 11, i.e. its top 53 bits) divided by
`9007199254740992 = 2 ^ 53`; for every state both values lie in `[0, 1)`,
strictly below `1` (every quantity involved is exactly representable, so the
exact-rational model agrees with the IEEE evaluation). -/
theorem closed_open_range (c : Ranxoshi256) :
    (ranxoshi256FloatCO c).1 = ((nextOut c >>> 40 : Nat) : ℚ) / 16777216 ∧
    0 ≤ (ranxoshi256FloatCO c).1 ∧ (ranxoshi256FloatCO c).1 < 1 ∧
    (ranxoshi256DoubleCO c).1 = ((nextOut c >>> 11 : Nat) : ℚ) / 9007199254740992 ∧
    0 ≤ (ranxoshi256DoubleCO c).1 ∧ (ranxoshi256DoubleCO c).1 < 1 := by
  have hf : nextOut c >>> 40 < 2 ^ 24 := shiftRight_lt_of_lt_W 40 (nextOut_lt c)
  have hd : nextOut c >>> 11 < 2 ^ 53 := shiftRight_lt_of_lt_W 11 (nextOut_lt c)
  refine ⟨rfl, ?_, ?_, rfl, ?_, ?_⟩
  · show (0 : ℚ) ≤ ((nextOut c >>> 40 : Nat) : ℚ) / 16777216
    positivity
  · show ((nextOut c >>> 40 : Nat) : ℚ) / 16777216 < 1
    rw [div_lt_one (by norm_num)]
    exact_mod_cast lt_of_lt_of_le hf (by norm_num)
  · show (0 : ℚ) ≤ ((nextOut c >>> 11 : Nat) : ℚ) / 9007199254740992
    positivity
  · show ((nextOut c >>> 11 : Nat) : ℚ) / 9007199254740992 < 1
    rw [div_lt_one (by norm_num)]
    exact_mod_cast lt_of_lt_of_le hd (by norm_num)

/-- C7: `ranxoshi256FloatCC` is (the raw word shifted right by 32) divided by
`4294967295 = 2 ^ 32 - 1` (the maximum 32-bit unsigned value), and
`ranxoshi256DoubleCC` is the full raw word divided by
`18446744073709551615 = 2 ^ 64 - 1`; for every state both values lie in
`[0, 1]`, and each endpoint is attained: `0` from the all-zero state and `1`
from a state whose next raw word is `2 ^ 64 - 1`. -/
theorem closed_closed_range :
    (∀ c : Ranxoshi256,
      (ranxoshi256FloatCC c).1 = ((nextOut c >>> 32 : Nat) : ℚ) / 4294967295 ∧
      0 ≤ (ranxoshi256FloatCC c).1 ∧ (ranxoshi256FloatCC c).1 ≤ 1 ∧
      (ranxoshi256DoubleCC c).1 = ((nextOut c : Nat) : ℚ) / 18446744073709551615 ∧
      0 ≤ (ranxoshi256DoubleCC c).1 ∧ (ranxoshi256DoubleCC c).1 ≤ 1) ∧
    ((ranxoshi256FloatCC szero).1 = 0 ∧ (ranxoshi256DoubleCC szero).1 = 0) ∧
    ((ranxoshi256FloatCC smax).1 = 1 ∧ (ranxoshi256DoubleCC smax).1 = 1) := by
  refine ⟨fun c => ?_, ⟨?_, ?_⟩, ⟨?_, ?_⟩⟩
  · have hf : nextOut c >>> 32 < 2 ^ 32 := shiftRight_lt_of_lt_W 32 (nextOut_lt c)
    have hd : nextOut c < 2 ^ 64 := nextOut_lt c
    refine ⟨rfl, ?_, ?_, rfl, ?_, ?_⟩
    · show (0 : ℚ) ≤ ((nextOut c >>> 32 : Nat) : ℚ) / 4294967295
      positivity
    · show ((nextOut c >>> 32 : Nat) : ℚ) / 4294967295 ≤ 1
      rw [div_le_one (by norm_num)]
      exact_mod_cast Nat.le_of_lt_succ (lt_of_lt_of_le hf (by norm_num))
    · show (0 : ℚ) ≤ ((nextOut c : Nat) : ℚ) / 18446744073709551615
      positivity
    · show ((nextOut c : Nat) : ℚ) / 18446744073709551615 ≤ 1
      rw [div_le_one (by norm_num)]
      exact_mod_cast Nat.le_of_lt_succ (lt_of_lt_of_le hd (by norm_num))
  · show ((nextOut szero >>> 32 : Nat) : ℚ) / 4294967295 = 0
    rw [show nextOut szero >>> 32 = 0 from by decide]
    norm_num
  · show ((nextOut szero : Nat) : ℚ) / 18446744073709551615 = 0
    rw [show nextOut szero = 0 from by decide]
    norm_num
  · show ((nextOut smax >>> 32 : Nat) : ℚ) / 4294967295 = 1
    rw [show nextOut smax >>> 32 = 4294967295 from by decide]
    norm_num
  · show ((nextOut smax : Nat) : ℚ) / 18446744073709551615 = 1
    rw [show nextOut smax = 18446744073709551615 from by decide]
    norm_num

/-! ### C10: seeding is injective and inverts -/

lemma be_sum_inj {a0 a1 a2 a3 a4 a5 a6 a7 b0 b1 b2 b3 b4 b5 b6 b7 : Nat}
    (ha0 : a0 < 256) (ha1 : a1 < 256) (ha2 : a2 < 256) (ha3 : a3 < 256) (ha4 : a4 < 256)
    (ha5 : a5 < 256) (ha6 : a6 < 256) (ha7 : a7 < 256) (hb0 : b0 < 256) (hb1 : b1 < 256)
    (hb2 : b2 < 256) (hb3 : b3 < 256) (hb4 : b4 < 256) (hb5 : b5 < 256) (hb6 : b6 < 256)
    (hb7 : b7 < 256)
    (h : a0 * 72057594037927936 + a1 * 281474976710656 + a2 * 1099511627776 +
      a3 * 4294967296 + a4 * 16777216 + a5 * 65536 + a6 * 256 + a7
      = b0 * 72057594037927936 + b1 * 281474976710656 + b2 * 1099511627776 +
      b3 * 4294967296 + b4 * 16777216 + b5 * 65536 + b6 * 256 + b7) :
    a0 = b0 ∧ a1 = b1 ∧ a2 = b2 ∧ a3 = b3 ∧ a4 = b4 ∧ a5 = b5 ∧ a6 = b6 ∧ a7 = b7 := by
  omega

lemma seed_inj {ctx ctx2 : Ranxoshi256} {s t : Fin 32 → Nat}
    (hs : ∀ j, s j < 256) (ht : ∀ j, t j < 256)
    (h : ranxoshi256Seed ctx s = ranxoshi256Seed ctx2 t) : s = t := by
  rw [(seed_big_endian ctx ctx s hs).1, (seed_big_endian ctx2 ctx2 t ht).1] at h
  injection h with e0 e1 e2 e3
  unfold beWord at e0 e1 e2 e3
  obtain ⟨q0, q1, q2, q3, q4, q5, q6, q7⟩ := be_sum_inj (hs _) (hs _) (hs _) (hs _) (hs _)
    (hs _) (hs _) (hs _) (ht _) (ht _) (ht _) (ht _) (ht _) (ht _) (ht _) (ht _) e0
  obtain ⟨r0, r1, r2, r3, r4, r5, r6, r7⟩ := be_sum_inj (hs _) (hs _) (hs _) (hs _) (hs _)
    (hs _) (hs _) (hs _) (ht _) (ht _) (ht _) (ht _) (ht _) (ht _) (ht _) (ht _) e1
  obtain ⟨u0, u1, u2, u3, u4, u5, u6, u7⟩ := be_sum_inj (hs _) (hs _) (hs _) (hs _) (hs _)
    (hs _) (hs _) (hs _) (ht _) (ht _) (ht _) (ht _) (ht _) (ht _) (ht _) (ht _) e2
  obtain ⟨v0, v1, v2, v3, v4, v5, v6, v7⟩ := be_sum_inj (hs _) (hs _) (hs _) (hs _) (hs _)
    (hs _) (hs _) (hs _) (ht _) (ht _) (ht _) (ht _) (ht _) (ht _) (ht _) (ht _) e3
  funext j
  obtain ⟨jv, hj⟩ := j
  interval_cases jv
  · exact q0
  · exact q1
  · exact q2
  · exact q3
  · exact q4
  · exact q5
  · exact q6
  · exact q7
  · exact r0
  · exact r1
  · exact r2
  · exact r3
  · exact r4
  · exact r5
  · exact r6
  · exact r7
  · exact u0
  · exact u1
  · exact u2
  · exact u3
  · exact u4
  · exact u5
  · exact u6
  · exact u7
  · exact v0
  · exact v1
  · exact v2
  · exact v3
  · exact v4
  · exact v5
  · exact v6
  · exact v7

lemma be_digits (w : Nat) (hw : w < 2 ^ 64) :
    w / 72057594037927936 % 256 * 72057594037927936 +
    w / 281474976710656 % 256 * 281474976710656 +
    w / 1099511627776 % 256 * 1099511627776 +
    w / 4294967296 % 256 * 4294967296 +
    w / 16777216 % 256 * 16777216 +
    w / 65536 % 256 * 65536 +
    w / 256 % 256 * 256 + w % 256 = w := by
  have q1 : w / 256 / 256 = w / 65536 := by rw [Nat.div_div_eq_div_mul]
  have q2 : w / 65536 / 256 = w / 16777216 := by rw [Nat.div_div_eq_div_mul]
  have q3 : w / 16777216 / 256 = w / 4294967296 := by rw [Nat.div_div_eq_div_mul]
  have q4 : w / 4294967296 / 256 = w / 1099511627776 := by rw [Nat.div_div_eq_div_mul]
  have q5 : w / 1099511627776 / 256 = w / 281474976710656 := by
    rw [Nat.div_div_eq_div_mul]
  have q6 : w / 281474976710656 / 256 = w / 72057594037927936 := by
    rw [Nat.div_div_eq_div_mul]
  omega

set_option maxHeartbeats 1000000 in
lemma seed_seedBytes {ctx : Ranxoshi256} {c : Ranxoshi256} (hw : Wf c) :
    ranxoshi256Seed ctx (seedBytes c) = c := by
  obtain ⟨a, b, c2, d⟩ := c
  obtain ⟨h0, h1, h2, h3⟩ := hw
  have ha : a < 2 ^ 64 := h0
  have hb : b < 2 ^ 64 := h1
  have hc : c2 < 2 ^ 64 := h2
  have hd : d < 2 ^ 64 := h3
  have hby : ∀ j, seedBytes ⟨a, b, c2, d⟩ j < 256 := fun j => Nat.mod_lt _ (by norm_num)
  rw [(seed_big_endian ctx ctx (seedBytes ⟨a, b, c2, d⟩) hby).1]
  have hv0 : ((0 : Fin 4) : Nat) = 0 := rfl
  have hv1 : ((1 : Fin 4) : Nat) = 1 := rfl
  have hv2 : ((2 : Fin 4) : Nat) = 2 := rfl
  have hv3 : ((3 : Fin 4) : Nat) = 3 := rfl
  simp only [beWord, seedBytes, wordAt, hv0, hv1, hv2, hv3]
  norm_num
  exact ⟨be_digits a ha, be_digits b hb, be_digits c2 hc, be_digits d hd⟩

/-- C10: `ranxoshi256Seed` is injective on 32-byte seeds; it is onto the
well-formed states (so the byte-to-state mapping is a bijection between
32-byte arrays and 4-word states), and the post-seed state does not depend on
the generator's prior state. -/
theorem seed_bijective (ctx ctx2 : Ranxoshi256) :
    (∀ s t : Fin 32 → Nat, (∀ j, s j < 256) → (∀ j, t j < 256) →
      ranxoshi256Seed ctx s = ranxoshi256Seed ctx2 t → s = t) ∧
    (∀ c : Ranxoshi256, Wf c →
      ∃ s : Fin 32 → Nat, (∀ j, s j < 256) ∧ ranxoshi256Seed ctx s = c) ∧
    (∀ s : Fin 32 → Nat, ranxoshi256Seed ctx s = ranxoshi256Seed ctx2 s) :=
  ⟨fun _ _ hs ht h => seed_inj hs ht h,
   fun c hw => ⟨seedBytes c, fun j => Nat.mod_lt _ (by norm_num), seed_seedBytes hw⟩,
   fun _ => rfl⟩

/-- Witness for C10: injectivity applied at the concrete seed `0, 1, ..., 31`
(with two different prior states), and the inverse seed recovered from the
corresponding state. -/
theorem seed_bijective_witness :
    (fun j : Fin 32 => (j.val : Nat)) = (fun j : Fin 32 => (j.val : Nat)) ∧
    ∃ s : Fin 32 → Nat, (∀ j, s j < 256) ∧
      ranxoshi256Seed szero s =
        ⟨0x0001020304050607, 0x08090A0B0C0D0E0F, 0x1011121314151617, 0x18191A1B1C1D1E1F⟩ :=
  ⟨(seed_bijective szero ⟨1, 2, 3, 4⟩).1 _ _
      (fun j => lt_of_lt_of_le j.isLt (by norm_num))
      (fun j => lt_of_lt_of_le j.isLt (by norm_num))
      rfl,
   (seed_bijective szero ⟨1, 2, 3, 4⟩).2.1 _ (by decide)⟩

/-! ### State XOR algebra -/

lemma sxor_zero (a : Ranxoshi256) : sxor a szero = a := by
  simp [sxor, szero]

lemma zero_sxor (a : Ranxoshi256) : sxor szero a = a := by
  simp [sxor, szero]

lemma sxor_self (a : Ranxoshi256) : sxor a a = szero := by
  simp [sxor, szero]

lemma sxor_comm (a b : Ranxoshi256) : sxor a b = sxor b a := by
  simp [sxor, Nat.xor_comm]

lemma sxor_assoc (a b c : Ranxoshi256) : sxor (sxor a b) c = sxor a (sxor b c) := by
  simp [sxor, Nat.xor_assoc]

lemma sxor_left_comm (a b c : Ranxoshi256) : sxor a (sxor b c) = sxor b (sxor a c) := by
  rw [← sxor_assoc, sxor_comm a b, sxor_assoc]

lemma sxor_cancel_left (a b : Ranxoshi256) : sxor a (sxor a b) = b := by
  rw [← sxor_assoc, sxor_self, zero_sxor]

lemma sxor_wf {a b : Ranxoshi256} (ha : Wf a) (hb : Wf b) : Wf (sxor a b) :=
  ⟨xor_lt_W ha.1 hb.1, xor_lt_W ha.2.1 hb.2.1, xor_lt_W ha.2.2.1 hb.2.2.1,
    xor_lt_W ha.2.2.2 hb.2.2.2⟩

lemma szero_wf : Wf szero := by decide

/-! ### Linearity of the state transition over XOR -/

lemma nextState_eq (c : Ranxoshi256) :
    nextState c = ⟨c.s0 ^^^ (c.s3 ^^^ c.s1), c.s1 ^^^ (c.s2 ^^^ c.s0),
      (c.s2 ^^^ c.s0) ^^^ ((c.s1 <<< 17) % W), ranxoshi256Rotate (c.s3 ^^^ c.s1) 45⟩ := rfl

lemma nextState_sxor {a b : Ranxoshi256} (ha : Wf a) (hb : Wf b) :
    nextState (sxor a b) = sxor (nextState a) (nextState b) := by
  obtain ⟨a0, a1, a2, a3⟩ := a
  obtain ⟨b0, b1, b2, b3⟩ := b
  obtain ⟨ha0, ha1, ha2, ha3⟩ := ha
  obtain ⟨hb0, hb1, hb2, hb3⟩ := hb
  rw [nextState_eq, nextState_eq, nextState_eq]
  simp only [sxor, Ranxoshi256.mk.injEq]
  refine ⟨?_, ?_, ?_, ?_⟩
  · simp only [Nat.xor_assoc, Nat.xor_comm, xor_left_comm]
  · simp only [Nat.xor_assoc, Nat.xor_comm, xor_left_comm]
  · rw [xor_shiftLeft, xor_mod_W]
    simp only [Nat.xor_assoc, Nat.xor_comm, xor_left_comm]
  · have harg : (a3 ^^^ b3) ^^^ (a1 ^^^ b1) = (a3 ^^^ a1) ^^^ (b3 ^^^ b1) := by
      simp only [Nat.xor_assoc, Nat.xor_comm, xor_left_comm]
    rw [harg, rotate_xor_distrib 45 (xor_lt_W ha3 ha1) (xor_lt_W hb3 hb1)]

/-! ### Polynomial evaluation at the state transition -/

lemma pE_zero_p (n : Nat) (st : Ranxoshi256) : polyEvalAux n 0 st = szero := by
  induction n generalizing st with
  | zero => rfl
  | succ n ih => simp [polyEvalAux, ih, zero_sxor]

lemma pE_szero (n p : Nat) : polyEvalAux n p szero = szero := by
  induction n generalizing p with
  | zero => rfl
  | succ n ih => simp [polyEvalAux, nextState_szero, ih, sxor_zero]

lemma pE_one (n : Nat) (st : Ranxoshi256) : polyEvalAux (n + 1) 1 st = st := by
  simp [polyEvalAux, pE_zero_p, sxor_zero]

lemma pE_two (n : Nat) (st : Ranxoshi256) : polyEvalAux (n + 2) 2 st = nextState st := by
  show sxor (if 2 % 2 = 1 then st else szero) (polyEvalAux (n + 1) (2 / 2) (nextState st)) = _
  simp [pE_one, zero_sxor]

lemma pE_double (n p : Nat) (st : Ranxoshi256) :
    polyEvalAux (n + 1) (2 * p) st = polyEvalAux n p (nextState st) := by
  show sxor (if 2 * p % 2 = 1 then st else szero)
    (polyEvalAux n (2 * p / 2) (nextState st)) = _
  rw [Nat.mul_mod_right, Nat.mul_div_cancel_left p (by norm_num)]
  simp [zero_sxor]

lemma pE_fuel (n k p : Nat) (st : Ranxoshi256) (hp : p < 2 ^ n) :
    polyEvalAux (n + k) p st = polyEvalAux n p st := by
  induction n generalizing p st with
  | zero =>
    have hp0 : p = 0 := by simpa using hp
    rw [hp0, pE_zero_p, pE_zero_p]
  | succ n ih =>
    have hstep : n + 1 + k = (n + k) + 1 := by omega
    rw [hstep]
    show sxor _ (polyEvalAux (n + k) (p / 2) (nextState st)) =
      sxor _ (polyEvalAux n (p / 2) (nextState st))
    rw [ih (p / 2) (nextState st) (by omega)]

lemma xor_mod_two (p q : Nat) : (p ^^^ q) % 2 = (p % 2) ^^^ (q % 2) := by
  have h := xor_mod_two_pow p q 1
  simpa using h

lemma pE_xor_p (n p q : Nat) (st : Ranxoshi256) :
    polyEvalAux n (p ^^^ q) st = sxor (polyEvalAux n p st) (polyEvalAux n q st) := by
  induction n generalizing p q st with
  | zero => rw [show polyEvalAux 0 (p ^^^ q) st = szero from rfl]; simp [polyEvalAux, sxor_zero]
  | succ n ih =>
    show sxor (if (p ^^^ q) % 2 = 1 then st else szero)
        (polyEvalAux n ((p ^^^ q) / 2) (nextState st)) = _
    rw [Nat.xor_div_two, xor_mod_two, ih]
    rcases Nat.mod_two_eq_zero_or_one p with hp | hp <;>
      rcases Nat.mod_two_eq_zero_or_one q with hq | hq <;>
        simp only [polyEvalAux, hp, hq] <;> norm_num <;>
          simp only [sxor_assoc, sxor_comm, sxor_left_comm, sxor_self, sxor_zero, zero_sxor,
            sxor_cancel_left]

lemma nextState_ite (b : Prop) [Decidable b] (st : Ranxoshi256) :
    nextState (if b then st else szero) = if b then nextState st else szero := by
  by_cases h : b <;> simp [h, nextState_szero]

lemma pE_wf (n p : Nat) {st : Ranxoshi256} (hw : Wf st) : Wf (polyEvalAux n p st) := by
  induction n generalizing p st with
  | zero => exact szero_wf
  | succ n ih =>
    show Wf (sxor (if p % 2 = 1 then st else szero) (polyEvalAux n (p / 2) (nextState st)))
    refine sxor_wf ?_ (ih _ (nextState_wf hw))
    by_cases h : p % 2 = 1 <;> simp [h, hw, szero_wf]

lemma pE_commute (n p : Nat) {st : Ranxoshi256} (hw : Wf st) :
    nextState (polyEvalAux n p st) = polyEvalAux n p (nextState st) := by
  induction n generalizing p st with
  | zero => exact nextState_szero
  | succ n ih =>
    show nextState (sxor (if p % 2 = 1 then st else szero)
        (polyEvalAux n (p / 2) (nextState st))) = sxor (if p % 2 = 1 then nextState st else szero)
        (polyEvalAux n (p / 2) (nextState (nextState st)))
    rw [nextState_sxor (by by_cases h : p % 2 = 1 <;> simp [h, hw, szero_wf])
        (pE_wf _ _ (nextState_wf hw)),
      nextState_ite, ih _ (nextState_wf hw)]

lemma pE_commute_iter (n p j : Nat) {st : Ranxoshi256} (hw : Wf st) :
    polyEvalAux n p (nextState^[j] st) = nextState^[j] (polyEvalAux n p st) := by
  induction j generalizing st with
  | zero => rfl
  | succ j ih =>
    rw [Function.iterate_succ_apply, Function.iterate_succ_apply,
      ih (nextState_wf hw), pE_commute n p hw]

lemma pE_sxor_st (n p : Nat) {x y : Ranxoshi256} (hx : Wf x) (hy : Wf y) :
    polyEvalAux n p (sxor x y) = sxor (polyEvalAux n p x) (polyEvalAux n p y) := by
  induction n generalizing p x y with
  | zero => simp [polyEvalAux, sxor_zero]
  | succ n ih =>
    show sxor (if p % 2 = 1 then sxor x y else szero)
        (polyEvalAux n (p / 2) (nextState (sxor x y))) = _
    rw [nextState_sxor hx hy, ih _ (nextState_wf hx) (nextState_wf hy)]
    by_cases h : p % 2 = 1 <;>
      simp only [polyEvalAux, h, if_true, if_false] <;>
        simp only [sxor_assoc, sxor_comm, sxor_left_comm, sxor_self, sxor_zero, zero_sxor,
          sxor_cancel_left]

/-! ### The jump loop as polynomial evaluation -/

lemma and_shift_bit (c k : Nat) : c &&& (1 <<< k) ≠ 0 ↔ (c >>> k) % 2 = 1 := by
  have h2 : (c >>> k).testBit 0 = c.testBit k := by
    rw [Nat.testBit_shiftRight, Nat.add_zero]
  rw [Nat.one_shiftLeft, Nat.and_two_pow, Nat.mod_two_eq_one_iff_testBit_zero, h2]
  cases hb : c.testBit k <;> simp [hb, (Nat.two_pow_pos k).ne']

lemma jumpLoop_range (c : Nat) : ∀ (n k : Nat) (q : Ranxoshi256 × Ranxoshi256),
    (List.range' k n).foldl (fun (q : Ranxoshi256 × Ranxoshi256) b =>
      (if c &&& (1 <<< b) ≠ 0 then sxor q.1 q.2 else q.1, nextState q.2)) q
    = jumpBitLoop n (c >>> k) q.1 q.2 := by
  intro n
  induction n with
  | zero => intro k q; rfl
  | succ n ih =>
    intro k q
    rw [List.range'_succ, List.foldl_cons, ih (k + 1)]
    simp only [jumpBitLoop]
    rw [Nat.shiftRight_succ]
    simp only [and_shift_bit]

lemma jumpConstLoop_eq (c : Nat) (q : Ranxoshi256 × Ranxoshi256) :
    jumpConstLoop c q = jumpBitLoopP 64 c q := by
  unfold jumpConstLoop jumpBitLoopP
  rw [List.range_eq_range', jumpLoop_range c 64 0 q, Nat.shiftRight_zero]

lemma jump_foldP (ctx : Ranxoshi256) : ranxoshi256Jump ctx =
    (jumpConsts.foldl (fun (p : Ranxoshi256 × Ranxoshi256) c => jumpBitLoopP 64 c p)
      (szero, ctx)).1 := by
  show (jumpConsts.foldl (fun (p : Ranxoshi256 × Ranxoshi256) c => jumpConstLoop c p)
      (szero, ctx)).1 = _
  exact congrArg Prod.fst (List.foldl_ext _ _ (szero, ctx) (fun a b _ => jumpConstLoop_eq b a))

/-- C3: `ranxoshi256Jump` performs exactly the documented algorithm: starting
from an all-zero accumulator, for each of the four constants in order and for
each of its 64 bits from least- to most-significant, the accumulator absorbs
the current state when the bit is set, `ranxoshi256Next` advances the state on
every bit iteration, and finally the accumulator overwrites the state
(`jumpSpec` is that algorithm written as a bit-serial recursion over each
constant). -/
theorem jump_matches_spec (ctx : Ranxoshi256) : ranxoshi256Jump ctx = jumpSpec ctx := by
  rw [jump_foldP]
  rfl

lemma jumpBitLoop_eval : ∀ (n c : Nat) (acc st : Ranxoshi256),
    jumpBitLoop n c acc st = (sxor acc (polyEvalAux n c st), nextState^[n] st) := by
  intro n
  induction n with
  | zero =>
    intro c acc st
    simp only [jumpBitLoop, polyEvalAux, sxor_zero, Function.iterate_zero, id]
  | succ n ih =>
    intro c acc st
    simp only [jumpBitLoop, polyEvalAux, ih, Function.iterate_succ_apply]
    by_cases h : c % 2 = 1 <;>
      simp only [h, if_true, if_false, zero_sxor, sxor_assoc]

lemma pE_split : ∀ (a b p : Nat) (st : Ranxoshi256), polyEvalAux (a + b) p st
    = sxor (polyEvalAux a p st) (polyEvalAux b (p >>> a) (nextState^[a] st)) := by
  intro a
  induction a with
  | zero =>
    intro b p st
    rw [Nat.zero_add, Nat.shiftRight_zero]
    simp only [polyEvalAux, Function.iterate_zero, id, zero_sxor]
  | succ a ih =>
    intro b p st
    have hstep : a + 1 + b = (a + b) + 1 := by omega
    rw [hstep]
    simp only [polyEvalAux]
    rw [ih b (p / 2) (nextState st)]
    rw [show (p / 2) >>> a = p >>> (a + 1) from by
      rw [← Nat.shiftRight_one, ← Nat.shiftRight_add, Nat.add_comm 1 a]]
    rw [show nextState^[a] (nextState st) = nextState^[a + 1] st from
      (Function.iterate_succ_apply nextState a st).symm]
    rw [sxor_assoc]

lemma pE_congr_low : ∀ (n p q : Nat) (st : Ranxoshi256), p % 2 ^ n = q % 2 ^ n →
    polyEvalAux n p st = polyEvalAux n q st := by
  intro n
  induction n with
  | zero => intro p q st _; rfl
  | succ n ih =>
    intro p q st h
    have h1 : p % 2 = q % 2 := by
      have hdvd : (2 : Nat) ∣ 2 ^ (n + 1) := dvd_pow_self 2 (Nat.succ_ne_zero n)
      rw [← Nat.mod_mod_of_dvd p hdvd, ← Nat.mod_mod_of_dvd q hdvd, h]
    have h2 : (p / 2) % 2 ^ n = (q / 2) % 2 ^ n := by
      rw [Nat.div_mod_eq_mod_mul_div, Nat.div_mod_eq_mod_mul_div,
        show (2 : Nat) * 2 ^ n = 2 ^ (n + 1) from (pow_succ' 2 n).symm, h]
    simp only [polyEvalAux]
    rw [h1, ih _ _ _ h2]

lemma jumpBitLoopP_eval (n c : Nat) (q : Ranxoshi256 × Ranxoshi256) :
    jumpBitLoopP n c q = (sxor q.1 (polyEvalAux n c q.2), nextState^[n] q.2) := by
  unfold jumpBitLoopP
  rw [jumpBitLoop_eval]

lemma concat_mod (c X : Nat) : ((c % 2 ^ 64) ^^^ (X <<< 64)) % 2 ^ 64 = c % 2 ^ 64 := by
  rw [xor_mod_two_pow, Nat.mod_mod_of_dvd c (dvd_refl _), Nat.shiftLeft_eq,
    Nat.mul_mod_left, Nat.xor_zero]

lemma concat_shift (c X : Nat) : ((c % 2 ^ 64) ^^^ (X <<< 64)) >>> 64 = X := by
  rw [xor_shiftRight]
  have h1 : (c % 2 ^ 64) >>> 64 = 0 := by
    rw [Nat.shiftRight_eq_div_pow]
    exact Nat.div_eq_of_lt (Nat.mod_lt _ (by norm_num))
  have h2 : (X <<< 64) >>> 64 = X := by
    rw [Nat.shiftLeft_eq, Nat.shiftRight_eq_div_pow]
    exact Nat.mul_div_cancel _ (by norm_num)
  rw [h1, h2, Nat.zero_xor]

lemma foldP_eval : ∀ (cs : List Nat) (q : Ranxoshi256 × Ranxoshi256),
    cs.foldl (fun (p : Ranxoshi256 × Ranxoshi256) c => jumpBitLoopP 64 c p) q
    = (sxor q.1 (polyEvalAux (64 * cs.length) (concatPoly cs) q.2),
       nextState^[64 * cs.length] q.2) := by
  intro cs
  induction cs with
  | nil =>
    intro q
    rw [List.foldl_nil, List.length_nil, Nat.mul_zero]
    rw [show polyEvalAux 0 (concatPoly []) q.2 = szero from rfl, sxor_zero]
    rfl
  | cons c rest ih =>
    intro q
    rw [List.foldl_cons]
    show (rest.foldl (fun (p : Ranxoshi256 × Ranxoshi256) c => jumpBitLoopP 64 c p)
      (jumpBitLoopP 64 c q)) = _
    rw [ih (jumpBitLoopP 64 c q), jumpBitLoopP_eval]
    rw [List.length_cons]
    have hlen : 64 * (rest.length + 1) = 64 + 64 * rest.length := by omega
    rw [hlen, pE_split 64 (64 * rest.length)]
    rw [show concatPoly (c :: rest) = (c % 2 ^ 64) ^^^ (concatPoly rest <<< 64) from rfl]
    rw [pE_congr_low 64 ((c % 2 ^ 64) ^^^ (concatPoly rest <<< 64)) c q.2
      (by rw [concat_mod])]
    rw [concat_shift]
    rw [show (64 : Nat) + 64 * rest.length = 64 * rest.length + 64 from by omega,
      Function.iterate_add_apply]
    rw [show (sxor q.1 (polyEvalAux 64 c q.2), nextState^[64] q.2).1
      = sxor q.1 (polyEvalAux 64 c q.2) from rfl]
    rw [show (sxor q.1 (polyEvalAux 64 c q.2), nextState^[64] q.2).2
      = nextState^[64] q.2 from rfl]
    rw [sxor_assoc]

lemma jump_eq_polyEval (ctx : Ranxoshi256) :
    ranxoshi256Jump ctx = polyEvalAux 256 jpoly ctx := by
  rw [jump_foldP, foldP_eval]
  rw [show ((sxor (szero, ctx).1
      (polyEvalAux (64 * jumpConsts.length) (concatPoly jumpConsts) (szero, ctx).2),
      nextState^[64 * jumpConsts.length] (szero, ctx).2)).1
    = sxor szero (polyEvalAux (64 * jumpConsts.length) (concatPoly jumpConsts) ctx)
    from rfl]
  rw [zero_sxor, show 64 * jumpConsts.length = 256 from rfl,
    show concatPoly jumpConsts = jpoly from by decide]

/-! ### The characteristic polynomial annihilates the transition -/

set_option maxRecDepth 1000000 in
set_option maxHeartbeats 8000000 in
lemma mPoly_ann_basis :
    ((List.range 64).all (fun i =>
      decide (polyEvalAux 257 mPoly ⟨1 <<< i, 0, 0, 0⟩ = szero) &&
      decide (polyEvalAux 257 mPoly ⟨0, 1 <<< i, 0, 0⟩ = szero) &&
      decide (polyEvalAux 257 mPoly ⟨0, 0, 1 <<< i, 0⟩ = szero) &&
      decide (polyEvalAux 257 mPoly ⟨0, 0, 0, 1 <<< i⟩ = szero))) = true := by decide

lemma mPoly_ann_basis_nth (i : Nat) (hi : i < 64) :
    polyEvalAux 257 mPoly ⟨1 <<< i, 0, 0, 0⟩ = szero ∧
    polyEvalAux 257 mPoly ⟨0, 1 <<< i, 0, 0⟩ = szero ∧
    polyEvalAux 257 mPoly ⟨0, 0, 1 <<< i, 0⟩ = szero ∧
    polyEvalAux 257 mPoly ⟨0, 0, 0, 1 <<< i⟩ = szero := by
  have h := mPoly_ann_basis
  rw [List.all_eq_true] at h
  have h2 := h i (List.mem_range.mpr hi)
  simp only [Bool.and_eq_true, decide_eq_true_eq] at h2
  exact ⟨h2.1.1.1, h2.1.1.2, h2.1.2, h2.2⟩

lemma two_pow_and_lt {b n : Nat} (hb : b < 2 ^ n) : 2 ^ n &&& b = 0 := by
  apply Nat.eq_of_testBit_eq
  intro i
  simp only [Nat.testBit_and, Nat.zero_testBit]
  by_cases h : i = n
  · subst h
    simp [Nat.testBit_lt_two_pow hb]
  · have h2 : (2 ^ n).testBit i = false := Nat.testBit_two_pow_of_ne (by omega)
    simp [h2]

lemma linear_zero_of_basis (g : Nat → Ranxoshi256)
    (hadd : ∀ x y, x < W → y < W → g (x ^^^ y) = sxor (g x) (g y))
    (hzero : g 0 = szero) (hbasis : ∀ i, i < 64 → g (2 ^ i) = szero) :
    ∀ x, x < W → g x = szero := by
  suffices h : ∀ n, n ≤ 64 → ∀ x, x < 2 ^ n → g x = szero by
    intro x hx
    exact h 64 le_rfl x hx
  intro n
  induction n with
  | zero =>
    intro _ x hx
    have hx0 : x = 0 := by
      have : x < 1 := by simpa using hx
      omega
    rw [hx0, hzero]
  | succ n ih =>
    intro hn x hx
    by_cases hlow : x < 2 ^ n
    · exact ih (by omega) x hlow
    · push_neg at hlow
      have hpos : (0 : Nat) < 2 ^ n := Nat.two_pow_pos n
      have hmod : x % 2 ^ n < 2 ^ n := Nat.mod_lt _ hpos
      have hdiv : x / 2 ^ n = 1 := by
        have h1 : 1 ≤ x / 2 ^ n := (Nat.one_le_div_iff hpos).mpr hlow
        have h2 : x / 2 ^ n < 2 := by
          rw [Nat.div_lt_iff_lt_mul hpos]
          calc x < 2 ^ (n + 1) := hx
          _ = 2 * 2 ^ n := by rw [pow_succ]; ring
        omega
      have hsplit : x = 2 ^ n ^^^ (x % 2 ^ n) := by
        have hx2 : x = 2 ^ n + x % 2 ^ n := by
          have hdm := Nat.div_add_mod x (2 ^ n)
          rw [hdiv, Nat.mul_one] at hdm
          omega
        have hor := Nat.mul_add_lt_is_or hmod 1
        rw [Nat.mul_one] at hor
        have hxor := lor_eq_xor (two_pow_and_lt hmod)
        exact hx2.trans (hor.trans hxor)
      have hnW : (2 : Nat) ^ n < W := by
        rw [W]
        exact Nat.pow_lt_pow_right (by norm_num) (by omega)
      rw [hsplit, hadd _ _ hnW (lt_trans hmod hnW), hbasis n (by omega), zero_sxor]
      exact ih (by omega) _ hmod

lemma mPoly_ann {c : Ranxoshi256} (hw : Wf c) : polyEvalAux 257 mPoly c = szero := by
  obtain ⟨a, b, c2, d⟩ := c
  obtain ⟨h0, h1, h2, h3⟩ := hw
  have hWpos := W_pos
  have w1 : Wf ⟨a, 0, 0, 0⟩ := ⟨h0, hWpos, hWpos, hWpos⟩
  have w2 : Wf ⟨0, b, 0, 0⟩ := ⟨hWpos, h1, hWpos, hWpos⟩
  have w3 : Wf ⟨0, 0, c2, 0⟩ := ⟨hWpos, hWpos, h2, hWpos⟩
  have w4 : Wf ⟨0, 0, 0, d⟩ := ⟨hWpos, hWpos, hWpos, h3⟩
  have hsplit : (⟨a, b, c2, d⟩ : Ranxoshi256) =
      sxor ⟨a, 0, 0, 0⟩ (sxor ⟨0, b, 0, 0⟩ (sxor ⟨0, 0, c2, 0⟩ ⟨0, 0, 0, d⟩)) := by
    simp [sxor]
  rw [hsplit, pE_sxor_st _ _ w1 (sxor_wf w2 (sxor_wf w3 w4)),
    pE_sxor_st _ _ w2 (sxor_wf w3 w4), pE_sxor_st _ _ w3 w4]
  have g0 : polyEvalAux 257 mPoly ⟨a, 0, 0, 0⟩ = szero := by
    refine linear_zero_of_basis (fun x => polyEvalAux 257 mPoly ⟨x, 0, 0, 0⟩) ?_ ?_ ?_ a h0
    · intro x y hx hy
      show polyEvalAux 257 mPoly ⟨x ^^^ y, 0, 0, 0⟩
        = sxor (polyEvalAux 257 mPoly ⟨x, 0, 0, 0⟩) (polyEvalAux 257 mPoly ⟨y, 0, 0, 0⟩)
      rw [show (⟨x ^^^ y, 0, 0, 0⟩ : Ranxoshi256) = sxor ⟨x, 0, 0, 0⟩ ⟨y, 0, 0, 0⟩ from
        by simp [sxor]]
      exact pE_sxor_st _ _ ⟨hx, hWpos, hWpos, hWpos⟩ ⟨hy, hWpos, hWpos, hWpos⟩
    · exact pE_szero _ _
    · intro i hi
      have h := (mPoly_ann_basis_nth i hi).1
      rwa [Nat.one_shiftLeft] at h
  have g1 : polyEvalAux 257 mPoly ⟨0, b, 0, 0⟩ = szero := by
    refine linear_zero_of_basis (fun x => polyEvalAux 257 mPoly ⟨0, x, 0, 0⟩) ?_ ?_ ?_ b h1
    · intro x y hx hy
      show polyEvalAux 257 mPoly ⟨0, x ^^^ y, 0, 0⟩
        = sxor (polyEvalAux 257 mPoly ⟨0, x, 0, 0⟩) (polyEvalAux 257 mPoly ⟨0, y, 0, 0⟩)
      rw [show (⟨0, x ^^^ y, 0, 0⟩ : Ranxoshi256) = sxor ⟨0, x, 0, 0⟩ ⟨0, y, 0, 0⟩ from
        by simp [sxor]]
      exact pE_sxor_st _ _ ⟨hWpos, hx, hWpos, hWpos⟩ ⟨hWpos, hy, hWpos, hWpos⟩
    · exact pE_szero _ _
    · intro i hi
      have h := (mPoly_ann_basis_nth i hi).2.1
      rwa [Nat.one_shiftLeft] at h
  have g2 : polyEvalAux 257 mPoly ⟨0, 0, c2, 0⟩ = szero := by
    refine linear_zero_of_basis (fun x => polyEvalAux 257 mPoly ⟨0, 0, x, 0⟩) ?_ ?_ ?_ c2 h2
    · intro x y hx hy
      show polyEvalAux 257 mPoly ⟨0, 0, x ^^^ y, 0⟩
        = sxor (polyEvalAux 257 mPoly ⟨0, 0, x, 0⟩) (polyEvalAux 257 mPoly ⟨0, 0, y, 0⟩)
      rw [show (⟨0, 0, x ^^^ y, 0⟩ : Ranxoshi256) = sxor ⟨0, 0, x, 0⟩ ⟨0, 0, y, 0⟩ from
        by simp [sxor]]
      exact pE_sxor_st _ _ ⟨hWpos, hWpos, hx, hWpos⟩ ⟨hWpos, hWpos, hy, hWpos⟩
    · exact pE_szero _ _
    · intro i hi
      have h := (mPoly_ann_basis_nth i hi).2.2.1
      rwa [Nat.one_shiftLeft] at h
  have g3 : polyEvalAux 257 mPoly ⟨0, 0, 0, d⟩ = szero := by
    refine linear_zero_of_basis (fun x => polyEvalAux 257 mPoly ⟨0, 0, 0, x⟩) ?_ ?_ ?_ d h3
    · intro x y hx hy
      show polyEvalAux 257 mPoly ⟨0, 0, 0, x ^^^ y⟩
        = sxor (polyEvalAux 257 mPoly ⟨0, 0, 0, x⟩) (polyEvalAux 257 mPoly ⟨0, 0, 0, y⟩)
      rw [show (⟨0, 0, 0, x ^^^ y⟩ : Ranxoshi256) = sxor ⟨0, 0, 0, x⟩ ⟨0, 0, 0, y⟩ from
        by simp [sxor]]
      exact pE_sxor_st _ _ ⟨hWpos, hWpos, hWpos, hx⟩ ⟨hWpos, hWpos, hWpos, hy⟩
    · exact pE_szero _ _
    · intro i hi
      have h := (mPoly_ann_basis_nth i hi).2.2.2
      rwa [Nat.one_shiftLeft] at h
  rw [g0, g1, g2, g3, sxor_zero, sxor_zero, sxor_zero]

/-! ### Modular reduction and the square chain -/

lemma pE_shiftLeft_p : ∀ (k j p : Nat) (st : Ranxoshi256),
    polyEvalAux (k + j) (p <<< k) st = polyEvalAux j p (nextState^[k] st) := by
  intro k
  induction k with
  | zero =>
    intro j p st
    rw [Nat.zero_add, Nat.shiftLeft_zero]
    rfl
  | succ k ih =>
    intro j p st
    rw [Nat.shiftLeft_succ_inside]
    rw [show k + 1 + j = k + (j + 1) from by omega, ih (j + 1) (2 * p) st, pE_double]
    rw [show nextState^[k + 1] st = nextState (nextState^[k] st) from
      Function.iterate_succ_apply' nextState k st]

lemma mPoly_lt : mPoly < 2 ^ 257 := by decide

lemma pE_m_shift_zero {st : Ranxoshi256} (hw : Wf st) (k : Nat) (hk : k ≤ 257) :
    polyEvalAux 514 (mPoly <<< k) st = szero := by
  rw [show (514 : Nat) = k + (514 - k) from by omega, pE_shiftLeft_p]
  rw [show (514 - k : Nat) = 257 + (257 - k) from by omega,
    pE_fuel 257 (257 - k) mPoly _ mPoly_lt]
  exact mPoly_ann (iterate_nextState_wf _ hw)

lemma pE_red_step {st : Ranxoshi256} (hw : Wf st) (a k : Nat) (hk : k ≤ 257) :
    polyEvalAux 514 (a ^^^ (mPoly <<< k)) st = polyEvalAux 514 a st := by
  rw [pE_xor_p, pE_m_shift_zero hw k hk, sxor_zero]

lemma polyReduce_eval : ∀ f, f ≤ 257 → ∀ (a : Nat) {st : Ranxoshi256}, Wf st →
    polyEvalAux 514 (polyReduce f a) st = polyEvalAux 514 a st := by
  intro f
  induction f with
  | zero =>
    intro _ a st hw
    show polyEvalAux 514 (if (a >>> 256) % 2 = 1 then a ^^^ mPoly else a) st = _
    by_cases h : (a >>> 256) % 2 = 1
    · rw [if_pos h]
      have hred := pE_red_step hw a 0 (by norm_num)
      rwa [Nat.shiftLeft_zero] at hred
    · rw [if_neg h]
  | succ f ih =>
    intro hf a st hw
    show polyEvalAux 514 (polyReduce f
      (if (a >>> (257 + f)) % 2 = 1 then a ^^^ (mPoly <<< (f + 1)) else a)) st = _
    rw [ih (by omega) _ hw]
    by_cases h : (a >>> (257 + f)) % 2 = 1
    · rw [if_pos h, pE_red_step hw a (f + 1) (by omega)]
    · rw [if_neg h]

lemma bit_high_false {a n : Nat} (h : a < 2 ^ n) (i : Nat) (hi : n ≤ i) :
    a.testBit i = false :=
  Nat.testBit_lt_two_pow (lt_of_lt_of_le h (pow_le_pow_right₀ (by norm_num) hi))

lemma testBit_of_shift_mod (a k : Nat) : (a >>> k) % 2 = 1 ↔ a.testBit k = true := by
  rw [Nat.mod_two_eq_one_iff_testBit_zero, Nat.testBit_shiftRight, Nat.add_zero]

lemma mPoly_top_bit : mPoly.testBit 256 = true := by decide

lemma xor_top_clear {x y n : Nat} (hx : x < 2 ^ (n + 1)) (hy : y < 2 ^ (n + 1))
    (hxa : x.testBit n = true) (hya : y.testBit n = true) : x ^^^ y < 2 ^ n := by
  apply Nat.lt_pow_two_of_testBit
  intro i hi
  rcases eq_or_lt_of_le hi with rfl | hlt
  · simp [Nat.testBit_xor, hxa, hya]
  · simp [Nat.testBit_xor, bit_high_false hx i hlt, bit_high_false hy i hlt]

lemma top_bit_false_lt {a n : Nat} (h : a < 2 ^ (n + 1)) (hb : ¬ (a >>> n) % 2 = 1) :
    a < 2 ^ n := by
  apply Nat.lt_pow_two_of_testBit
  intro i hi
  by_cases heq : i = n
  · subst heq
    cases htb : a.testBit i with
    | false => rfl
    | true => exact absurd ((testBit_of_shift_mod a i).mpr htb) hb
  · exact bit_high_false h i (by omega)

lemma mPoly_shift_lt (k : Nat) : mPoly <<< k < 2 ^ (257 + k) := by
  rw [Nat.shiftLeft_eq, pow_add]
  exact (Nat.mul_lt_mul_right (Nat.two_pow_pos k)).mpr mPoly_lt

lemma mPoly_shift_top_bit (k : Nat) : (mPoly <<< k).testBit (256 + k) = true := by
  rw [Nat.testBit_shiftLeft]
  simp only [show 256 + k - k = 256 from by omega, mPoly_top_bit]
  simp

lemma polyReduce_lt : ∀ f a, a < 2 ^ (257 + f) → polyReduce f a < 2 ^ 256 := by
  intro f
  induction f with
  | zero =>
    intro a ha
    rw [Nat.add_zero] at ha
    show (if (a >>> 256) % 2 = 1 then a ^^^ mPoly else a) < 2 ^ 256
    by_cases h : (a >>> 256) % 2 = 1
    · rw [if_pos h]
      exact xor_top_clear ha mPoly_lt ((testBit_of_shift_mod a 256).mp h) mPoly_top_bit
    · rw [if_neg h]
      exact top_bit_false_lt ha h
  | succ f ih =>
    intro a ha
    show polyReduce f
      (if (a >>> (257 + f)) % 2 = 1 then a ^^^ (mPoly <<< (f + 1)) else a) < 2 ^ 256
    apply ih
    by_cases h : (a >>> (257 + f)) % 2 = 1
    · rw [if_pos h]
      have h1 : a < 2 ^ (257 + f + 1) := by
        have : 257 + (f + 1) = 257 + f + 1 := by omega
        rwa [this] at ha
      have h2 : mPoly <<< (f + 1) < 2 ^ (257 + f + 1) := by
        have := mPoly_shift_lt (f + 1)
        rwa [show 257 + (f + 1) = 257 + f + 1 from by omega] at this
      have h3 : (mPoly <<< (f + 1)).testBit (257 + f) = true := by
        have := mPoly_shift_top_bit (f + 1)
        rwa [show 256 + (f + 1) = 257 + f from by omega] at this
      exact xor_top_clear h1 h2 ((testBit_of_shift_mod a (257 + f)).mp h) h3
    · rw [if_neg h]
      exact top_bit_false_lt (by rwa [show 257 + f + 1 = 257 + (f + 1) from by omega]) h

lemma clmulAux_lt : ∀ n p q b, q < 2 ^ b → clmulAux n p q < 2 ^ (n + b) := by
  intro n
  induction n with
  | zero =>
    intro p q b _
    exact Nat.two_pow_pos _
  | succ n ih =>
    intro p q b hq
    show ((if p % 2 = 1 then q else 0) ^^^ 2 * clmulAux n (p / 2) q) < 2 ^ (n + 1 + b)
    apply Nat.xor_lt_two_pow
    · by_cases h : p % 2 = 1 <;> simp only [h, if_true, if_false]
      · exact lt_of_lt_of_le hq (pow_le_pow_right₀ (by norm_num) (by omega))
      · exact Nat.two_pow_pos _
    · have h1 := ih (p / 2) q b hq
      have h2 : (2 : Nat) ^ (n + 1 + b) = 2 * 2 ^ (n + b) := by
        rw [show n + 1 + b = (n + b) + 1 from by omega, pow_succ]
        ring
      omega

lemma pE_clmul : ∀ (n b p q : Nat) {st : Ranxoshi256}, Wf st → q < 2 ^ b →
    polyEvalAux (n + b) (clmulAux n p q) st = polyEvalAux n p (polyEvalAux b q st) := by
  intro n
  induction n with
  | zero =>
    intro b p q st _ _
    rw [Nat.zero_add, show clmulAux 0 p q = 0 from rfl, pE_zero_p]
    rfl
  | succ n ih =>
    intro b p q st hw hq
    show polyEvalAux (n + 1 + b)
      ((if p % 2 = 1 then q else 0) ^^^ 2 * clmulAux n (p / 2) q) st = _
    rw [pE_xor_p]
    have hdouble : polyEvalAux (n + 1 + b) (2 * clmulAux n (p / 2) q) st
        = polyEvalAux (n + b) (clmulAux n (p / 2) q) (nextState st) := by
      rw [show n + 1 + b = (n + b) + 1 from by omega]
      exact pE_double _ _ _
    rw [hdouble, ih b (p / 2) q (nextState_wf hw) hq]
    show _ = sxor (if p % 2 = 1 then polyEvalAux b q st else szero)
      (polyEvalAux n (p / 2) (nextState (polyEvalAux b q st)))
    rw [pE_commute b q hw]
    congr 1
    by_cases h : p % 2 = 1
    · rw [if_pos h, if_pos h, show n + 1 + b = b + (n + 1) from by omega,
        pE_fuel b (n + 1) q st hq]
    · rw [if_neg h, if_neg h, pE_zero_p]

lemma jchain_lt : ∀ k, jchain k < 2 ^ 257
  | 0 => by
    show (2 : Nat) < 2 ^ 257
    decide
  | k + 1 => by
    show jsq (jchain k) < 2 ^ 257
    have h1 : clmulAux 257 (jchain k) (jchain k) < 2 ^ (257 + 257) :=
      clmulAux_lt 257 (jchain k) (jchain k) 257 (jchain_lt k)
    have h2 := polyReduce_lt 257 _ h1
    exact lt_trans h2 (by norm_num)

lemma jchain_sem : ∀ k {st : Ranxoshi256}, Wf st →
    polyEvalAux 257 (jchain k) st = nextState^[2 ^ k] st := by
  intro k
  induction k with
  | zero =>
    intro st _
    show polyEvalAux 257 2 st = nextState^[1] st
    rw [show (257 : Nat) = 255 + 2 from rfl, pE_two, Function.iterate_one]
  | succ k ih =>
    intro st hw
    show polyEvalAux 257 (jsq (jchain k)) st = _
    have hlt : jsq (jchain k) < 2 ^ 257 := jchain_lt (k + 1)
    rw [show polyEvalAux 257 (jsq (jchain k)) st
      = polyEvalAux (257 + 257) (jsq (jchain k)) st from
      (pE_fuel 257 257 _ st hlt).symm]
    show polyEvalAux 514 (polyReduce 257 (clmulAux 257 (jchain k) (jchain k))) st = _
    rw [polyReduce_eval 257 le_rfl _ hw]
    rw [show (514 : Nat) = 257 + 257 from rfl,
      pE_clmul 257 257 (jchain k) (jchain k) hw (jchain_lt k)]
    rw [ih hw, pE_commute_iter 257 (jchain k) (2 ^ k) hw, ih hw,
      ← Function.iterate_add_apply]
    have hpow : 2 ^ k + 2 ^ k = 2 ^ (k + 1) := by
      have := pow_succ 2 k
      omega
    rw [hpow]

lemma jpoly_lt : jpoly < 2 ^ 256 := by decide

set_option maxRecDepth 100000 in
set_option maxHeartbeats 12000000 in
lemma jsq_steps :
    jsq 0x2 = 0x4 ∧
    jsq 0x4 = 0x10 ∧
    jsq 0x10 = 0x100 ∧
    jsq 0x100 = 0x10000 ∧
    jsq 0x10000 = 0x100000000 ∧
    jsq 0x100000000 = 0x10000000000000000 ∧
    jsq 0x10000000000000000 = 0x100000000000000000000000000000000 ∧
    jsq 0x100000000000000000000000000000000 = 0x3c03c3f3ecb1904b4edcf26259f850280002bcefd1a5e9d116f2bb0f0f001 ∧
    jsq 0x3c03c3f3ecb1904b4edcf26259f850280002bcefd1a5e9d116f2bb0f0f001 = 0xbe7976372e9304356dd49b656055c9da81f675e7a4ef7d84c7327d130e34b489 ∧
    jsq 0xbe7976372e9304356dd49b656055c9da81f675e7a4ef7d84c7327d130e34b489 = 0x65507439cf43f0e28456faeb6230d9841be1d76854ddda93060106bbbe4ff028 ∧
    jsq 0x65507439cf43f0e28456faeb6230d9841be1d76854ddda93060106bbbe4ff028 = 0x51edef31819e01ff3c8ca36ec9a74fa715fe822628b16f04876c2301125a85c0 ∧
    jsq 0x51edef31819e01ff3c8ca36ec9a74fa715fe822628b16f04876c2301125a85c0 = 0xf41cce3698fad39aa6eb691cbf9ce10d638d47ec5bcf595d7f4e8da7e228b85 ∧
    jsq 0xf41cce3698fad39aa6eb691cbf9ce10d638d47ec5bcf595d7f4e8da7e228b85 = 0xda66e09e52b341d132104b94fe2534d3b1df898a4a6f1548669da12373880674 ∧
    jsq 0xda66e09e52b341d132104b94fe2534d3b1df898a4a6f1548669da12373880674 = 0x3cec2c375bef249c023ecbee3f717fce3886af219b8852484f20eb915e780231 ∧
    jsq 0x3cec2c375bef249c023ecbee3f717fce3886af219b8852484f20eb915e780231 = 0x1a9dcf944ae47603a69393ac0d837e54c3ce2f061f077568449b3ae793888c8c ∧
    jsq 0x1a9dcf944ae47603a69393ac0d837e54c3ce2f061f077568449b3ae793888c8c = 0xd87f8ce230817a21ef43beaa06f02fb892ae7ca370c0bf6b7e89ac5ca2fbf2c7 ∧
    jsq 0xd87f8ce230817a21ef43beaa06f02fb892ae7ca370c0bf6b7e89ac5ca2fbf2c7 = 0xbd53027696368bbbf0c168649cdba61f54adade3697d477f6c4adbe18e29df8a ∧
    jsq 0xbd53027696368bbbf0c168649cdba61f54adade3697d477f6c4adbe18e29df8a = 0xf78a97c0d882cd371ea49b5067452594f2c602feb5ed002b1a673fecf40e36b8 ∧
    jsq 0xf78a97c0d882cd371ea49b5067452594f2c602feb5ed002b1a673fecf40e36b8 = 0x1639a36e0968e3c5590923d02ec52531770323eab8d437bdef4606da56224c47 ∧
    jsq 0x1639a36e0968e3c5590923d02ec52531770323eab8d437bdef4606da56224c47 = 0x8b3919a9d298a4152f679f694a74c76a7cde241817a3ce0f31d9d05c5d95f3cd ∧
    jsq 0x8b3919a9d298a4152f679f694a74c76a7cde241817a3ce0f31d9d05c5d95f3cd = 0x624eb7b63c322e71d9b36372fd70ec83eace6d3840b79fef6b6622ae9590047a ∧
    jsq 0x624eb7b63c322e71d9b36372fd70ec83eace6d3840b79fef6b6622ae9590047a = 0x2bac5517c9469796cebbfd2ef4e9aff4eb2c7e29d3c33d2e1b91fd9ba98d9e23 ∧
    jsq 0x2bac5517c9469796cebbfd2ef4e9aff4eb2c7e29d3c33d2e1b91fd9ba98d9e23 = 0xfb678bd3e5dac186657a6b736317866bba0ffb6562a3a28a01f356e6083fe109 ∧
    jsq 0xfb678bd3e5dac186657a6b736317866bba0ffb6562a3a28a01f356e6083fe109 = 0xf5c010059e83bc3ff3469dbb4fe25d26e46916a1426b676dc5461100f197a7e8 ∧
    jsq 0xf5c010059e83bc3ff3469dbb4fe25d26e46916a1426b676dc5461100f197a7e8 = 0xe677849e207f6afd5de3e273dc7b84dc3eec4eb6495ce5aa22dc028cb8c259dc ∧
    jsq 0xe677849e207f6afd5de3e273dc7b84dc3eec4eb6495ce5aa22dc028cb8c259dc = 0xd19a1bdceb7522cdf2332a778d9c8dc114e10c3b7c36788832d418900fd3b0f ∧
    jsq 0xd19a1bdceb7522cdf2332a778d9c8dc114e10c3b7c36788832d418900fd3b0f = 0xf38f7e750d5f4f2a98273f4d18ad073e8b3ed7c37e947e38e2d0c9c10e8d7157 ∧
    jsq 0xf38f7e750d5f4f2a98273f4d18ad073e8b3ed7c37e947e38e2d0c9c10e8d7157 = 0xafa9e3fe5fea15c36d48dd206d56754d34f30137eadb90b9e7109518f3510d70 ∧
    jsq 0xafa9e3fe5fea15c36d48dd206d56754d34f30137eadb90b9e7109518f3510d70 = 0x1ca234ff511bcb05c76a456d998ddc4cd7c26ebd51ecf6c48ee774f507ec9f39 ∧
    jsq 0x1ca234ff511bcb05c76a456d998ddc4cd7c26ebd51ecf6c48ee774f507ec9f39 = 0x3e667662caa54d16e0e9fa345826626d352f8b5d2137de834905d8261158a7bc ∧
    jsq 0x3e667662caa54d16e0e9fa345826626d352f8b5d2137de834905d8261158a7bc = 0xa43d37468704d53682b9aa358fe2ed58e1185a166bb38173272a32be4bac7912 ∧
    jsq 0xa43d37468704d53682b9aa358fe2ed58e1185a166bb38173272a32be4bac7912 = 0xe055d3520fdb9d7214fafc0fbdbc2087d8d0632bd08e6ac58120d583c112f69 ∧
    jsq 0xe055d3520fdb9d7214fafc0fbdbc2087d8d0632bd08e6ac58120d583c112f69 = 0xa1b7ebf581a90f09ffed2ffbcf857b425d33a22177777716d9eb3e225a9ebb7d ∧
    jsq 0xa1b7ebf581a90f09ffed2ffbcf857b425d33a22177777716d9eb3e225a9ebb7d = 0xafe97309a7881b0a59f09ab33f1c8f40c2e65cfa3a44f3b3a433a5cff8501f4 ∧
    jsq 0xafe97309a7881b0a59f09ab33f1c8f40c2e65cfa3a44f3b3a433a5cff8501f4 = 0xc1cdf918a717c89794295f82142a68bd53a34398808ef457635e9c6882ce5c6a ∧
    jsq 0xc1cdf918a717c89794295f82142a68bd53a34398808ef457635e9c6882ce5c6a = 0xac7fe0806aecd6c863d3f9df102dfa7e306c4d371040af1e1a2c804af78e2ed4 ∧
    jsq 0xac7fe0806aecd6c863d3f9df102dfa7e306c4d371040af1e1a2c804af78e2ed4 = 0x702cf168260fa29e976589eefbb1c7f57823a1cd9453899b7743a154e17a5e9b ∧
    jsq 0x702cf168260fa29e976589eefbb1c7f57823a1cd9453899b7743a154e17a5e9b = 0xc4671ec91b902bae03803bdb9ea7d7e868ef5242f2d9c5b22edfce1b0667bf3f ∧
    jsq 0xc4671ec91b902bae03803bdb9ea7d7e868ef5242f2d9c5b22edfce1b0667bf3f = 0x755b16e231d1e7c9af03bea7ea7109fd0af3e6140fcff1854d2c07a0b0f7980f ∧
    jsq 0x755b16e231d1e7c9af03bea7ea7109fd0af3e6140fcff1854d2c07a0b0f7980f = 0x51fc9b8eb1974e73eece73d85df1836113a31dc36460a3b0d24b31ab16542ea0 ∧
    jsq 0x51fc9b8eb1974e73eece73d85df1836113a31dc36460a3b0d24b31ab16542ea0 = 0xfb43cf1f4658ae1bde49d57f23fdecb5a374bf9822d660aaec9c79ebd62a4a91 ∧
    jsq 0xfb43cf1f4658ae1bde49d57f23fdecb5a374bf9822d660aaec9c79ebd62a4a91 = 0x9b48db8907d00f973aa3d49368a9c56248b8b0570f008a917602414a37bf1c08 ∧
    jsq 0x9b48db8907d00f973aa3d49368a9c56248b8b0570f008a917602414a37bf1c08 = 0x8ec1a9dd27957370a6994477ec2d6d859e11e129fcced20ef7569be74f972355 ∧
    jsq 0x8ec1a9dd27957370a6994477ec2d6d859e11e129fcced20ef7569be74f972355 = 0xba8b1a7be4521854f6c987b8eb4f76db82f1f8d3ebd9baffc223943200d6e8a0 ∧
    jsq 0xba8b1a7be4521854f6c987b8eb4f76db82f1f8d3ebd9baffc223943200d6e8a0 = 0xa8f7de3ed772d2d2bad2e3487a438d37f6faaff592dc08c7e226bff99e7f9d4f ∧
    jsq 0xa8f7de3ed772d2d2bad2e3487a438d37f6faaff592dc08c7e226bff99e7f9d4f = 0x3c63f6f95954e65e181d6c749bfc7e7bb006241469247fbd6322f95d362137f1 ∧
    jsq 0x3c63f6f95954e65e181d6c749bfc7e7bb006241469247fbd6322f95d362137f1 = 0x81f450881b8436920df6566ff12f17f469811136f33b48faaa878816402dab5f ∧
    jsq 0x81f450881b8436920df6566ff12f17f469811136f33b48faaa878816402dab5f = 0x5f728be2c97e9066474579292f705634f825539dee5e4763f11fb4faea62c7f1 ∧
    jsq 0x5f728be2c97e9066474579292f705634f825539dee5e4763f11fb4faea62c7f1 = 0x5ff98760441a364cec104b9942b386be36d6c9bc4bcb56f5f18ac1f5eac5120e ∧
    jsq 0x5ff98760441a364cec104b9942b386be36d6c9bc4bcb56f5f18ac1f5eac5120e = 0xb01e1ff4eb0b05f6d1c440c801f3cddf168b84ac131ea85612b825906ddc86af ∧
    jsq 0xb01e1ff4eb0b05f6d1c440c801f3cddf168b84ac131ea85612b825906ddc86af = 0x140bd5e4e00ffdaaf1ab1bce1577ad4eb5bb35fe03c3158a5696a9ed59ffcbe3 ∧
    jsq 0x140bd5e4e00ffdaaf1ab1bce1577ad4eb5bb35fe03c3158a5696a9ed59ffcbe3 = 0x5177664e86d5e31b49c2df736ebe9c688eadd052a304405f61507225f9f0e0fa ∧
    jsq 0x5177664e86d5e31b49c2df736ebe9c688eadd052a304405f61507225f9f0e0fa = 0xa93a7aadeced9cd75b8d5f58ce3357a7ca120d886e8fdf3387aac36cc0c1abae ∧
    jsq 0xa93a7aadeced9cd75b8d5f58ce3357a7ca120d886e8fdf3387aac36cc0c1abae = 0xd5372758d87157efa6f4a2ea423cc2f62b95939579346af1d4eb47064a9ac499 ∧
    jsq 0xd5372758d87157efa6f4a2ea423cc2f62b95939579346af1d4eb47064a9ac499 = 0x7e0b8abe53e950f8b86994c9cb3059a556df3905d6712eed549bf83ef12aebc3 ∧
    jsq 0x7e0b8abe53e950f8b86994c9cb3059a556df3905d6712eed549bf83ef12aebc3 = 0x888f2c33969763bc405c1164a3a6d4927cc40c1479b95df0b32b0dbe851dd9d ∧
    jsq 0x888f2c33969763bc405c1164a3a6d4927cc40c1479b95df0b32b0dbe851dd9d = 0xfecb2b39fb96f07831acd0e23e87d9d37e5cbd2047cefb5e920a67ed72aa1155 ∧
    jsq 0xfecb2b39fb96f07831acd0e23e87d9d37e5cbd2047cefb5e920a67ed72aa1155 = 0xf643cc9255f0674182f88d9e6b9b17c097a6c4a0d2cdf9ac9841d4c5510c4700 ∧
    jsq 0xf643cc9255f0674182f88d9e6b9b17c097a6c4a0d2cdf9ac9841d4c5510c4700 = 0xe8e07ed05188af0f65ba2fdf5fe59ed155756dedb136961f30ac848541c0b04f ∧
    jsq 0xe8e07ed05188af0f65ba2fdf5fe59ed155756dedb136961f30ac848541c0b04f = 0x679b88958f3bbdcb04ad0ecd62544db26d885bb5321527a7adcede280bb92b99 ∧
    jsq 0x679b88958f3bbdcb04ad0ecd62544db26d885bb5321527a7adcede280bb92b99 = 0xd10d621b74213644bbf25302a56d6131aaee46b89b10620184db0e338a94ce16 ∧
    jsq 0xd10d621b74213644bbf25302a56d6131aaee46b89b10620184db0e338a94ce16 = 0x6ff477672ddf72b15083dee093b632b731fbe8b0a2035587ed3c94e03147ca9b ∧
    jsq 0x6ff477672ddf72b15083dee093b632b731fbe8b0a2035587ed3c94e03147ca9b = 0xa9559a2368719526bae4d9a25a3928b922a36cdc0fda409f936ece877e64cc97 ∧
    jsq 0xa9559a2368719526bae4d9a25a3928b922a36cdc0fda409f936ece877e64cc97 = 0x12e4a2fbfc19bff934faff184785c20ab60d6c5b8c78f106b13c16e8096f0754 ∧
    jsq 0x12e4a2fbfc19bff934faff184785c20ab60d6c5b8c78f106b13c16e8096f0754 = 0x1e22c55ed04628f471c9cddcc21b4d96e9cd737204214bdf69135f8ae4f3becb ∧
    jsq 0x1e22c55ed04628f471c9cddcc21b4d96e9cd737204214bdf69135f8ae4f3becb = 0xb6e16802c1e5a473d3c646ca742cfd35cdc2f8abc30facd843f19411729e47a3 ∧
    jsq 0xb6e16802c1e5a473d3c646ca742cfd35cdc2f8abc30facd843f19411729e47a3 = 0x71583507471df592e9121d42d889f1e6cf7a45ddbd380c46e1040fefa7016612 ∧
    jsq 0x71583507471df592e9121d42d889f1e6cf7a45ddbd380c46e1040fefa7016612 = 0x790035ed5d8a52063481941c63b9723bef00865ccdc62b407dc73de451f84f31 ∧
    jsq 0x790035ed5d8a52063481941c63b9723bef00865ccdc62b407dc73de451f84f31 = 0xc5245c9108c8303b1b2e1e5f58ca50e9e2b26892066519e7b7fde9c10dde1033 ∧
    jsq 0xc5245c9108c8303b1b2e1e5f58ca50e9e2b26892066519e7b7fde9c10dde1033 = 0x72636702af55f1ae80dd958fc2ce8b38d0229895c9855019f7e31117fca1fde3 ∧
    jsq 0x72636702af55f1ae80dd958fc2ce8b38d0229895c9855019f7e31117fca1fde3 = 0xaf24371b5a1a053d59970509d58afcb4369b623ac732f278f4fdf1938a08c423 ∧
    jsq 0xaf24371b5a1a053d59970509d58afcb4369b623ac732f278f4fdf1938a08c423 = 0xc2a214d5ccfdc9cc98aea009de1e6b3b4f2a8443cc705e1be38bd8d6060eecb2 ∧
    jsq 0xc2a214d5ccfdc9cc98aea009de1e6b3b4f2a8443cc705e1be38bd8d6060eecb2 = 0x45c97103176ad4cb35a81ddfd74498bfe60945b17507ff1779e326bea03051e ∧
    jsq 0x45c97103176ad4cb35a81ddfd74498bfe60945b17507ff1779e326bea03051e = 0x8c79d3fd0cd87d25e54b1f90f1804a5b967c5d39bff598c3f99f64a8eef50acc ∧
    jsq 0x8c79d3fd0cd87d25e54b1f90f1804a5b967c5d39bff598c3f99f64a8eef50acc = 0x44a26649c72eaf799b135f39cbd2444200dc697c0ce8f5bf5bf7c3946011203d ∧
    jsq 0x44a26649c72eaf799b135f39cbd2444200dc697c0ce8f5bf5bf7c3946011203d = 0x621f84d4c5b7d5b26f0bd8889bc16b6505063f82926b10501fe0ce6e4a5fbfa9 ∧
    jsq 0x621f84d4c5b7d5b26f0bd8889bc16b6505063f82926b10501fe0ce6e4a5fbfa9 = 0xafb60de4ef76f2d8a2ce3240999f03958cac609dd3f769ea0bd0d4953231dc02 ∧
    jsq 0xafb60de4ef76f2d8a2ce3240999f03958cac609dd3f769ea0bd0d4953231dc02 = 0x6d9d47d177fda8e15d5a93bb678d1ff3b46e28d0dd20be9ce41a05c6d5ad6443 ∧
    jsq 0x6d9d47d177fda8e15d5a93bb678d1ff3b46e28d0dd20be9ce41a05c6d5ad6443 = 0x69b492ad849876a0f671f175f29bd401c05cb5489fabd6ba3750097bc18818df ∧
    jsq 0x69b492ad849876a0f671f175f29bd401c05cb5489fabd6ba3750097bc18818df = 0x2c09ebb60b81941a5d23c239088b488e0355dab5aaada3566c1a4d1bee4cfb25 ∧
    jsq 0x2c09ebb60b81941a5d23c239088b488e0355dab5aaada3566c1a4d1bee4cfb25 = 0x3d8c3676399ece2d1c4df4e6dc4daa6ca77d08c97aa93a7b85bc661b5fe4c77f ∧
    jsq 0x3d8c3676399ece2d1c4df4e6dc4daa6ca77d08c97aa93a7b85bc661b5fe4c77f = 0xd6fc185137af1d8b97595ce59431e3aab12fec5cc69849360d50032e0877ba29 ∧
    jsq 0xd6fc185137af1d8b97595ce59431e3aab12fec5cc69849360d50032e0877ba29 = 0x86b251394485c94bd5cace972fee73fa754228fc6853084549aa26e5d4bf7857 ∧
    jsq 0x86b251394485c94bd5cace972fee73fa754228fc6853084549aa26e5d4bf7857 = 0xb0baae7f98b528c0bff33c810d4f1e62dfd675636a53a2ad8d480422727ca5ce ∧
    jsq 0xb0baae7f98b528c0bff33c810d4f1e62dfd675636a53a2ad8d480422727ca5ce = 0x3fa865ff30ea93f76a4d1fd3bf02d5587d85e7cb6751bcbbb0908faa94bfc92c ∧
    jsq 0x3fa865ff30ea93f76a4d1fd3bf02d5587d85e7cb6751bcbbb0908faa94bfc92c = 0x3c3c2884d98788bc5aa4dacdc52add36a789c54654ca7c28d0d6be52a69e58c9 ∧
    jsq 0x3c3c2884d98788bc5aa4dacdc52add36a789c54654ca7c28d0d6be52a69e58c9 = 0x15e0fed2f7bccfef4c9ca45e4bc2a3c341288120b4579cf85f3f3b8fef0ed6b3 ∧
    jsq 0x15e0fed2f7bccfef4c9ca45e4bc2a3c341288120b4579cf85f3f3b8fef0ed6b3 = 0xa949942afc5a2f2c9c885317a50787eb53b8a4a16a46d7c3d262b21891db8d4e ∧
    jsq 0xa949942afc5a2f2c9c885317a50787eb53b8a4a16a46d7c3d262b21891db8d4e = 0xfe740ffad9e176874ea029ea5dbf8c1dc0a2019a1a152787718aec6a573de99d ∧
    jsq 0xfe740ffad9e176874ea029ea5dbf8c1dc0a2019a1a152787718aec6a573de99d = 0x77a27a67f88f49e1228277008b5fb66935e2e29698d7eb0d07f145f47c78ac8e ∧
    jsq 0x77a27a67f88f49e1228277008b5fb66935e2e29698d7eb0d07f145f47c78ac8e = 0x1029f062e580da266648b4ef24a588567c62ece20d8be0116627da855e5050fb ∧
    jsq 0x1029f062e580da266648b4ef24a588567c62ece20d8be0116627da855e5050fb = 0xa0d23922f4dc99166f17a03a6bc6a87734092a8e98b795bea9ffe6995923a7b1 ∧
    jsq 0xa0d23922f4dc99166f17a03a6bc6a87734092a8e98b795bea9ffe6995923a7b1 = 0x336f2f9401f8204135e67f142da25aca0ee2caf1df36f661062e89b53f6cea07 ∧
    jsq 0x336f2f9401f8204135e67f142da25aca0ee2caf1df36f661062e89b53f6cea07 = 0xa3a29886c86c3cded617e92e93ea456793b549a81fd07be4bf67135726c63517 ∧
    jsq 0xa3a29886c86c3cded617e92e93ea456793b549a81fd07be4bf67135726c63517 = 0xfe0143fd314c9e7ec51d91ed4856b46ef9d3a86c856b8a2621ff06188c9cc699 ∧
    jsq 0xfe0143fd314c9e7ec51d91ed4856b46ef9d3a86c856b8a2621ff06188c9cc699 = 0x31eebb6c82a9615fb27c05962ea56a13cdb45d7def42c317148c356c3114b7a9 ∧
    jsq 0x31eebb6c82a9615fb27c05962ea56a13cdb45d7def42c317148c356c3114b7a9 = 0xc78709f4e0724160d863413b92cae906d8aed72f2c4c8d065d4da92b5d749ee7 ∧
    jsq 0xc78709f4e0724160d863413b92cae906d8aed72f2c4c8d065d4da92b5d749ee7 = 0x43b4a1c47d75f54af59e618faaebae8ae2ece3b6969fe76ac72a478e776aa7e8 ∧
    jsq 0x43b4a1c47d75f54af59e618faaebae8ae2ece3b6969fe76ac72a478e776aa7e8 = 0x57f74d5c8e13eabef018da68303dd3aab24feee905fd903285043fb7b5ec46d9 ∧
    jsq 0x57f74d5c8e13eabef018da68303dd3aab24feee905fd903285043fb7b5ec46d9 = 0xbf7e526feafe9fab6bef1c2cbcff5536a797dd2a234c782b1fe7835e4087fe62 ∧
    jsq 0xbf7e526feafe9fab6bef1c2cbcff5536a797dd2a234c782b1fe7835e4087fe62 = 0x944120083af78d6175b4d7f6cc9f25e15aa27a47492448382b8e518ff5d4cf7b ∧
    jsq 0x944120083af78d6175b4d7f6cc9f25e15aa27a47492448382b8e518ff5d4cf7b = 0xa1d8b4c28aebb8511965ee22fd231ead1bf5aad8660b3dff3d6f902c3475cabe ∧
    jsq 0xa1d8b4c28aebb8511965ee22fd231ead1bf5aad8660b3dff3d6f902c3475cabe = 0x9c9e175a184afb5365e7e4d9e2832455c97a1beedb0cd1818f55a96afe8c60d6 ∧
    jsq 0x9c9e175a184afb5365e7e4d9e2832455c97a1beedb0cd1818f55a96afe8c60d6 = 0xb9d862913d6f7e400a65eef99174032874b6da57ea2bc33a652cb4ccd4073f0f ∧
    jsq 0xb9d862913d6f7e400a65eef99174032874b6da57ea2bc33a652cb4ccd4073f0f = 0x82998b76e46a33d6d4b46d9444c365a710698e01c2ae9c871045804fface6bf3 ∧
    jsq 0x82998b76e46a33d6d4b46d9444c365a710698e01c2ae9c871045804fface6bf3 = 0x8da69514b40b00e7f1a9cb543a0bfa1002416381d70e6c430a2c871d4e66d5cd ∧
    jsq 0x8da69514b40b00e7f1a9cb543a0bfa1002416381d70e6c430a2c871d4e66d5cd = 0x27b45c44ee4a622983d4e917f16be77b4dc5ff02cd80ea1db79a9592b42dcf38 ∧
    jsq 0x27b45c44ee4a622983d4e917f16be77b4dc5ff02cd80ea1db79a9592b42dcf38 = 0x3762beab010e60b1219d46c745e04de7ae1e5f3ff8b477204d5d5691e346a117 ∧
    jsq 0x3762beab010e60b1219d46c745e04de7ae1e5f3ff8b477204d5d5691e346a117 = 0x1cbf90cd7272db76634ad6497e9d5d70b46fba890f1ca8f6a26c20feb2ae9f7d ∧
    jsq 0x1cbf90cd7272db76634ad6497e9d5d70b46fba890f1ca8f6a26c20feb2ae9f7d = 0x5f46daf7953c1bb34fb63d3b5eb990979b34b9c8c6c9c0e0b0c0f65d5e452c0d ∧
    jsq 0x5f46daf7953c1bb34fb63d3b5eb990979b34b9c8c6c9c0e0b0c0f65d5e452c0d = 0x127923940e883a8188dc353d2d4788aa08f672eaf81f8987fafc3b0810db88e ∧
    jsq 0x127923940e883a8188dc353d2d4788aa08f672eaf81f8987fafc3b0810db88e = 0x19809df824096ba19a5475c8d2fb2d20e903694ada9d6795ff09f37df22eab9a ∧
    jsq 0x19809df824096ba19a5475c8d2fb2d20e903694ada9d6795ff09f37df22eab9a = 0x7ea9fc3051e87b78e6a590ca622a3320861797e8573bfcd7656c70a5f3f5c710 ∧
    jsq 0x7ea9fc3051e87b78e6a590ca622a3320861797e8573bfcd7656c70a5f3f5c710 = 0x644a875145d5d51f84d72b234e8a54795ad3eec2014d42b66aaa9929398cd48a ∧
    jsq 0x644a875145d5d51f84d72b234e8a54795ad3eec2014d42b66aaa9929398cd48a = 0x6d2cc53f91af5f85203951cfd23e94cb00659f02b37a017c6c738865ed73b377 ∧
    jsq 0x6d2cc53f91af5f85203951cfd23e94cb00659f02b37a017c6c738865ed73b377 = 0xc0864662b10083e8bef3d95e4e54413a8bc10737770d137ef7af674289519c6c ∧
    jsq 0xc0864662b10083e8bef3d95e4e54413a8bc10737770d137ef7af674289519c6c = 0xcecda49faf04bbfbeb185b3b61ef25071d6286a155723d48f5238b0ff86d1867 ∧
    jsq 0xcecda49faf04bbfbeb185b3b61ef25071d6286a155723d48f5238b0ff86d1867 = 0x2732a7244a31e5dda02ccbd8d031b5d599c6cd156b9744df644b243f9d056a3a ∧
    jsq 0x2732a7244a31e5dda02ccbd8d031b5d599c6cd156b9744df644b243f9d056a3a = 0x216f9077c64f36f6df8f6390d609a5d475e9335039224b3b25523b168236da8c ∧
    jsq 0x216f9077c64f36f6df8f6390d609a5d475e9335039224b3b25523b168236da8c = 0x56ab0ca212a8d012ef5b7611f90b7c08565c9f7a11c40482c291983aa3a3a178 ∧
    jsq 0x56ab0ca212a8d012ef5b7611f90b7c08565c9f7a11c40482c291983aa3a3a178 = 0x45c2ad3649667c04c7abdfbc652abf3ed73fe72ba2d98892b400d4604c1d59db ∧
    jsq 0x45c2ad3649667c04c7abdfbc652abf3ed73fe72ba2d98892b400d4604c1d59db = 0x91c1510f9b6f2ef8058b3d55bfaa4aad543fa081564a326f9bb885cd5aa00a8c ∧
    jsq 0x91c1510f9b6f2ef8058b3d55bfaa4aad543fa081564a326f9bb885cd5aa00a8c = 0x9d6ef09217bf59b753c8dfba6c9aacae09cf7d85a86c1a907a3e03325fb2eeb7 ∧
    jsq 0x9d6ef09217bf59b753c8dfba6c9aacae09cf7d85a86c1a907a3e03325fb2eeb7 = 0xa1a3090ef816c214d8289b4ae487d7e10bbfd59ed2151f31e98651fa6fb0337b ∧
    jsq 0xa1a3090ef816c214d8289b4ae487d7e10bbfd59ed2151f31e98651fa6fb0337b = 0xaa72e405fb26c80a56e93ecb5b3619951b18a0517cea386aaeb33557c76543fe ∧
    jsq 0xaa72e405fb26c80a56e93ecb5b3619951b18a0517cea386aaeb33557c76543fe = 0xfd4d894c8f82680a8397aeedc528c3f057c811875c62528446555cf90fc3d1cb ∧
    jsq 0xfd4d894c8f82680a8397aeedc528c3f057c811875c62528446555cf90fc3d1cb = 0xd46cb8565abad18ea50845f0f43019854dd8801baa92fddaeacbd852b93bd815 ∧
    jsq 0xd46cb8565abad18ea50845f0f43019854dd8801baa92fddaeacbd852b93bd815 = 0x39abdc4529b1661ca9582618e03fc9aad5a61266f0c9392c180ec6d33cfd0aba := by
  refine ⟨?_, ?_, ?_, ?_, ?_, ?_, ?_, ?_, ?_, ?_, ?_, ?_, ?_, ?_, ?_, ?_, ?_, ?_, ?_, ?_, ?_, ?_, ?_, ?_, ?_, ?_, ?_, ?_, ?_, ?_, ?_, ?_, ?_, ?_, ?_, ?_, ?_, ?_, ?_, ?_, ?_, ?_, ?_, ?_, ?_, ?_, ?_, ?_, ?_, ?_, ?_, ?_, ?_, ?_, ?_, ?_, ?_, ?_, ?_, ?_, ?_, ?_, ?_, ?_, ?_, ?_, ?_, ?_, ?_, ?_, ?_, ?_, ?_, ?_, ?_, ?_, ?_, ?_, ?_, ?_, ?_, ?_, ?_, ?_, ?_, ?_, ?_, ?_, ?_, ?_, ?_, ?_, ?_, ?_, ?_, ?_, ?_, ?_, ?_, ?_, ?_, ?_, ?_, ?_, ?_, ?_, ?_, ?_, ?_, ?_, ?_, ?_, ?_, ?_, ?_, ?_, ?_, ?_, ?_, ?_, ?_, ?_, ?_, ?_, ?_, ?_, ?_, ?_⟩ <;> decide

set_option maxRecDepth 100000 in
lemma jchain_128 : jchain 128 = jpoly := by
  obtain ⟨s1, s2, s3, s4, s5, s6, s7, s8, s9, s10, s11, s12, s13, s14, s15, s16, s17, s18, s19, s20, s21, s22, s23, s24, s25, s26, s27, s28, s29, s30, s31, s32, s33, s34, s35, s36, s37, s38, s39, s40, s41, s42, s43, s44, s45, s46, s47, s48, s49, s50, s51, s52, s53, s54, s55, s56, s57, s58, s59, s60, s61, s62, s63, s64, s65, s66, s67, s68, s69, s70, s71, s72, s73, s74, s75, s76, s77, s78, s79, s80, s81, s82, s83, s84, s85, s86, s87, s88, s89, s90, s91, s92, s93, s94, s95, s96, s97, s98, s99, s100, s101, s102, s103, s104, s105, s106, s107, s108, s109, s110, s111, s112, s113, s114, s115, s116, s117, s118, s119, s120, s121, s122, s123, s124, s125, s126, s127, s128⟩ := jsq_steps
  have h0 : jchain 0 = 2 := rfl
  have h1 : jchain 1 = 0x4 := by
    show jsq (jchain 0) = 0x4
    rw [h0]
    exact s1
  have h2 : jchain 2 = 0x10 := by
    show jsq (jchain 1) = 0x10
    rw [h1]
    exact s2
  have h3 : jchain 3 = 0x100 := by
    show jsq (jchain 2) = 0x100
    rw [h2]
    exact s3
  have h4 : jchain 4 = 0x10000 := by
    show jsq (jchain 3) = 0x10000
    rw [h3]
    exact s4
  have h5 : jchain 5 = 0x100000000 := by
    show jsq (jchain 4) = 0x100000000
    rw [h4]
    exact s5
  have h6 : jchain 6 = 0x10000000000000000 := by
    show jsq (jchain 5) = 0x10000000000000000
    rw [h5]
    exact s6
  have h7 : jchain 7 = 0x100000000000000000000000000000000 := by
    show jsq (jchain 6) = 0x100000000000000000000000000000000
    rw [h6]
    exact s7
  have h8 : jchain 8 = 0x3c03c3f3ecb1904b4edcf26259f850280002bcefd1a5e9d116f2bb0f0f001 := by
    show jsq (jchain 7) = 0x3c03c3f3ecb1904b4edcf26259f850280002bcefd1a5e9d116f2bb0f0f001
    rw [h7]
    exact s8
  have h9 : jchain 9 = 0xbe7976372e9304356dd49b656055c9da81f675e7a4ef7d84c7327d130e34b489 := by
    show jsq (jchain 8) = 0xbe7976372e9304356dd49b656055c9da81f675e7a4ef7d84c7327d130e34b489
    rw [h8]
    exact s9
  have h10 : jchain 10 = 0x65507439cf43f0e28456faeb6230d9841be1d76854ddda93060106bbbe4ff028 := by
    show jsq (jchain 9) = 0x65507439cf43f0e28456faeb6230d9841be1d76854ddda93060106bbbe4ff028
    rw [h9]
    exact s10
  have h11 : jchain 11 = 0x51edef31819e01ff3c8ca36ec9a74fa715fe822628b16f04876c2301125a85c0 := by
    show jsq (jchain 10) = 0x51edef31819e01ff3c8ca36ec9a74fa715fe822628b16f04876c2301125a85c0
    rw [h10]
    exact s11
  have h12 : jchain 12 = 0xf41cce3698fad39aa6eb691cbf9ce10d638d47ec5bcf595d7f4e8da7e228b85 := by
    show jsq (jchain 11) = 0xf41cce3698fad39aa6eb691cbf9ce10d638d47ec5bcf595d7f4e8da7e228b85
    rw [h11]
    exact s12
  have h13 : jchain 13 = 0xda66e09e52b341d132104b94fe2534d3b1df898a4a6f1548669da12373880674 := by
    show jsq (jchain 12) = 0xda66e09e52b341d132104b94fe2534d3b1df898a4a6f1548669da12373880674
    rw [h12]
    exact s13
  have h14 : jchain 14 = 0x3cec2c375bef249c023ecbee3f717fce3886af219b8852484f20eb915e780231 := by
    show jsq (jchain 13) = 0x3cec2c375bef249c023ecbee3f717fce3886af219b8852484f20eb915e780231
    rw [h13]
    exact s14
  have h15 : jchain 15 = 0x1a9dcf944ae47603a69393ac0d837e54c3ce2f061f077568449b3ae793888c8c := by
    show jsq (jchain 14) = 0x1a9dcf944ae47603a69393ac0d837e54c3ce2f061f077568449b3ae793888c8c
    rw [h14]
    exact s15
  have h16 : jchain 16 = 0xd87f8ce230817a21ef43beaa06f02fb892ae7ca370c0bf6b7e89ac5ca2fbf2c7 := by
    show jsq (jchain 15) = 0xd87f8ce230817a21ef43beaa06f02fb892ae7ca370c0bf6b7e89ac5ca2fbf2c7
    rw [h15]
    exact s16
  have h17 : jchain 17 = 0xbd53027696368bbbf0c168649cdba61f54adade3697d477f6c4adbe18e29df8a := by
    show jsq (jchain 16) = 0xbd53027696368bbbf0c168649cdba61f54adade3697d477f6c4adbe18e29df8a
    rw [h16]
    exact s17
  have h18 : jchain 18 = 0xf78a97c0d882cd371ea49b5067452594f2c602feb5ed002b1a673fecf40e36b8 := by
    show jsq (jchain 17) = 0xf78a97c0d882cd371ea49b5067452594f2c602feb5ed002b1a673fecf40e36b8
    rw [h17]
    exact s18
  have h19 : jchain 19 = 0x1639a36e0968e3c5590923d02ec52531770323eab8d437bdef4606da56224c47 := by
    show jsq (jchain 18) = 0x1639a36e0968e3c5590923d02ec52531770323eab8d437bdef4606da56224c47
    rw [h18]
    exact s19
  have h20 : jchain 20 = 0x8b3919a9d298a4152f679f694a74c76a7cde241817a3ce0f31d9d05c5d95f3cd := by
    show jsq (jchain 19) = 0x8b3919a9d298a4152f679f694a74c76a7cde241817a3ce0f31d9d05c5d95f3cd
    rw [h19]
    exact s20
  have h21 : jchain 21 = 0x624eb7b63c322e71d9b36372fd70ec83eace6d3840b79fef6b6622ae9590047a := by
    show jsq (jchain 20) = 0x624eb7b63c322e71d9b36372fd70ec83eace6d3840b79fef6b6622ae9590047a
    rw [h20]
    exact s21
  have h22 : jchain 22 = 0x2bac5517c9469796cebbfd2ef4e9aff4eb2c7e29d3c33d2e1b91fd9ba98d9e23 := by
    show jsq (jchain 21) = 0x2bac5517c9469796cebbfd2ef4e9aff4eb2c7e29d3c33d2e1b91fd9ba98d9e23
    rw [h21]
    exact s22
  have h23 : jchain 23 = 0xfb678bd3e5dac186657a6b736317866bba0ffb6562a3a28a01f356e6083fe109 := by
    show jsq (jchain 22) = 0xfb678bd3e5dac186657a6b736317866bba0ffb6562a3a28a01f356e6083fe109
    rw [h22]
    exact s23
  have h24 : jchain 24 = 0xf5c010059e83bc3ff3469dbb4fe25d26e46916a1426b676dc5461100f197a7e8 := by
    show jsq (jchain 23) = 0xf5c010059e83bc3ff3469dbb4fe25d26e46916a1426b676dc5461100f197a7e8
    rw [h23]
    exact s24
  have h25 : jchain 25 = 0xe677849e207f6afd5de3e273dc7b84dc3eec4eb6495ce5aa22dc028cb8c259dc := by
    show jsq (jchain 24) = 0xe677849e207f6afd5de3e273dc7b84dc3eec4eb6495ce5aa22dc028cb8c259dc
    rw [h24]
    exact s25
  have h26 : jchain 26 = 0xd19a1bdceb7522cdf2332a778d9c8dc114e10c3b7c36788832d418900fd3b0f := by
    show jsq (jchain 25) = 0xd19a1bdceb7522cdf2332a778d9c8dc114e10c3b7c36788832d418900fd3b0f
    rw [h25]
    exact s26
  have h27 : jchain 27 = 0xf38f7e750d5f4f2a98273f4d18ad073e8b3ed7c37e947e38e2d0c9c10e8d7157 := by
    show jsq (jchain 26) = 0xf38f7e750d5f4f2a98273f4d18ad073e8b3ed7c37e947e38e2d0c9c10e8d7157
    rw [h26]
    exact s27
  have h28 : jchain 28 = 0xafa9e3fe5fea15c36d48dd206d56754d34f30137eadb90b9e7109518f3510d70 := by
    show jsq (jchain 27) = 0xafa9e3fe5fea15c36d48dd206d56754d34f30137eadb90b9e7109518f3510d70
    rw [h27]
    exact s28
  have h29 : jchain 29 = 0x1ca234ff511bcb05c76a456d998ddc4cd7c26ebd51ecf6c48ee774f507ec9f39 := by
    show jsq (jchain 28) = 0x1ca234ff511bcb05c76a456d998ddc4cd7c26ebd51ecf6c48ee774f507ec9f39
    rw [h28]
    exact s29
  have h30 : jchain 30 = 0x3e667662caa54d16e0e9fa345826626d352f8b5d2137de834905d8261158a7bc := by
    show jsq (jchain 29) = 0x3e667662caa54d16e0e9fa345826626d352f8b5d2137de834905d8261158a7bc
    rw [h29]
    exact s30
  have h31 : jchain 31 = 0xa43d37468704d53682b9aa358fe2ed58e1185a166bb38173272a32be4bac7912 := by
    show jsq (jchain 30) = 0xa43d37468704d53682b9aa358fe2ed58e1185a166bb38173272a32be4bac7912
    rw [h30]
    exact s31
  have h32 : jchain 32 = 0xe055d3520fdb9d7214fafc0fbdbc2087d8d0632bd08e6ac58120d583c112f69 := by
    show jsq (jchain 31) = 0xe055d3520fdb9d7214fafc0fbdbc2087d8d0632bd08e6ac58120d583c112f69
    rw [h31]
    exact s32
  have h33 : jchain 33 = 0xa1b7ebf581a90f09ffed2ffbcf857b425d33a22177777716d9eb3e225a9ebb7d := by
    show jsq (jchain 32) = 0xa1b7ebf581a90f09ffed2ffbcf857b425d33a22177777716d9eb3e225a9ebb7d
    rw [h32]
    exact s33
  have h34 : jchain 34 = 0xafe97309a7881b0a59f09ab33f1c8f40c2e65cfa3a44f3b3a433a5cff8501f4 := by
    show jsq (jchain 33) = 0xafe97309a7881b0a59f09ab33f1c8f40c2e65cfa3a44f3b3a433a5cff8501f4
    rw [h33]
    exact s34
  have h35 : jchain 35 = 0xc1cdf918a717c89794295f82142a68bd53a34398808ef457635e9c6882ce5c6a := by
    show jsq (jchain 34) = 0xc1cdf918a717c89794295f82142a68bd53a34398808ef457635e9c6882ce5c6a
    rw [h34]
    exact s35
  have h36 : jchain 36 = 0xac7fe0806aecd6c863d3f9df102dfa7e306c4d371040af1e1a2c804af78e2ed4 := by
    show jsq (jchain 35) = 0xac7fe0806aecd6c863d3f9df102dfa7e306c4d371040af1e1a2c804af78e2ed4
    rw [h35]
    exact s36
  have h37 : jchain 37 = 0x702cf168260fa29e976589eefbb1c7f57823a1cd9453899b7743a154e17a5e9b := by
    show jsq (jchain 36) = 0x702cf168260fa29e976589eefbb1c7f57823a1cd9453899b7743a154e17a5e9b
    rw [h36]
    exact s37
  have h38 : jchain 38 = 0xc4671ec91b902bae03803bdb9ea7d7e868ef5242f2d9c5b22edfce1b0667bf3f := by
    show jsq (jchain 37) = 0xc4671ec91b902bae03803bdb9ea7d7e868ef5242f2d9c5b22edfce1b0667bf3f
    rw [h37]
    exact s38
  have h39 : jchain 39 = 0x755b16e231d1e7c9af03bea7ea7109fd0af3e6140fcff1854d2c07a0b0f7980f := by
    show jsq (jchain 38) = 0x755b16e231d1e7c9af03bea7ea7109fd0af3e6140fcff1854d2c07a0b0f7980f
    rw [h38]
    exact s39
  have h40 : jchain 40 = 0x51fc9b8eb1974e73eece73d85df1836113a31dc36460a3b0d24b31ab16542ea0 := by
    show jsq (jchain 39) = 0x51fc9b8eb1974e73eece73d85df1836113a31dc36460a3b0d24b31ab16542ea0
    rw [h39]
    exact s40
  have h41 : jchain 41 = 0xfb43cf1f4658ae1bde49d57f23fdecb5a374bf9822d660aaec9c79ebd62a4a91 := by
    show jsq (jchain 40) = 0xfb43cf1f4658ae1bde49d57f23fdecb5a374bf9822d660aaec9c79ebd62a4a91
    rw [h40]
    exact s41
  have h42 : jchain 42 = 0x9b48db8907d00f973aa3d49368a9c56248b8b0570f008a917602414a37bf1c08 := by
    show jsq (jchain 41) = 0x9b48db8907d00f973aa3d49368a9c56248b8b0570f008a917602414a37bf1c08
    rw [h41]
    exact s42
  have h43 : jchain 43 = 0x8ec1a9dd27957370a6994477ec2d6d859e11e129fcced20ef7569be74f972355 := by
    show jsq (jchain 42) = 0x8ec1a9dd27957370a6994477ec2d6d859e11e129fcced20ef7569be74f972355
    rw [h42]
    exact s43
  have h44 : jchain 44 = 0xba8b1a7be4521854f6c987b8eb4f76db82f1f8d3ebd9baffc223943200d6e8a0 := by
    show jsq (jchain 43) = 0xba8b1a7be4521854f6c987b8eb4f76db82f1f8d3ebd9baffc223943200d6e8a0
    rw [h43]
    exact s44
  have h45 : jchain 45 = 0xa8f7de3ed772d2d2bad2e3487a438d37f6faaff592dc08c7e226bff99e7f9d4f := by
    show jsq (jchain 44) = 0xa8f7de3ed772d2d2bad2e3487a438d37f6faaff592dc08c7e226bff99e7f9d4f
    rw [h44]
    exact s45
  have h46 : jchain 46 = 0x3c63f6f95954e65e181d6c749bfc7e7bb006241469247fbd6322f95d362137f1 := by
    show jsq (jchain 45) = 0x3c63f6f95954e65e181d6c749bfc7e7bb006241469247fbd6322f95d362137f1
    rw [h45]
    exact s46
  have h47 : jchain 47 = 0x81f450881b8436920df6566ff12f17f469811136f33b48faaa878816402dab5f := by
    show jsq (jchain 46) = 0x81f450881b8436920df6566ff12f17f469811136f33b48faaa878816402dab5f
    rw [h46]
    exact s47
  have h48 : jchain 48 = 0x5f728be2c97e9066474579292f705634f825539dee5e4763f11fb4faea62c7f1 := by
    show jsq (jchain 47) = 0x5f728be2c97e9066474579292f705634f825539dee5e4763f11fb4faea62c7f1
    rw [h47]
    exact s48
  have h49 : jchain 49 = 0x5ff98760441a364cec104b9942b386be36d6c9bc4bcb56f5f18ac1f5eac5120e := by
    show jsq (jchain 48) = 0x5ff98760441a364cec104b9942b386be36d6c9bc4bcb56f5f18ac1f5eac5120e
    rw [h48]
    exact s49
  have h50 : jchain 50 = 0xb01e1ff4eb0b05f6d1c440c801f3cddf168b84ac131ea85612b825906ddc86af := by
    show jsq (jchain 49) = 0xb01e1ff4eb0b05f6d1c440c801f3cddf168b84ac131ea85612b825906ddc86af
    rw [h49]
    exact s50
  have h51 : jchain 51 = 0x140bd5e4e00ffdaaf1ab1bce1577ad4eb5bb35fe03c3158a5696a9ed59ffcbe3 := by
    show jsq (jchain 50) = 0x140bd5e4e00ffdaaf1ab1bce1577ad4eb5bb35fe03c3158a5696a9ed59ffcbe3
    rw [h50]
    exact s51
  have h52 : jchain 52 = 0x5177664e86d5e31b49c2df736ebe9c688eadd052a304405f61507225f9f0e0fa := by
    show jsq (jchain 51) = 0x5177664e86d5e31b49c2df736ebe9c688eadd052a304405f61507225f9f0e0fa
    rw [h51]
    exact s52
  have h53 : jchain 53 = 0xa93a7aadeced9cd75b8d5f58ce3357a7ca120d886e8fdf3387aac36cc0c1abae := by
    show jsq (jchain 52) = 0xa93a7aadeced9cd75b8d5f58ce3357a7ca120d886e8fdf3387aac36cc0c1abae
    rw [h52]
    exact s53
  have h54 : jchain 54 = 0xd5372758d87157efa6f4a2ea423cc2f62b95939579346af1d4eb47064a9ac499 := by
    show jsq (jchain 53) = 0xd5372758d87157efa6f4a2ea423cc2f62b95939579346af1d4eb47064a9ac499
    rw [h53]
    exact s54
  have h55 : jchain 55 = 0x7e0b8abe53e950f8b86994c9cb3059a556df3905d6712eed549bf83ef12aebc3 := by
    show jsq (jchain 54) = 0x7e0b8abe53e950f8b86994c9cb3059a556df3905d6712eed549bf83ef12aebc3
    rw [h54]
    exact s55
  have h56 : jchain 56 = 0x888f2c33969763bc405c1164a3a6d4927cc40c1479b95df0b32b0dbe851dd9d := by
    show jsq (jchain 55) = 0x888f2c33969763bc405c1164a3a6d4927cc40c1479b95df0b32b0dbe851dd9d
    rw [h55]
    exact s56
  have h57 : jchain 57 = 0xfecb2b39fb96f07831acd0e23e87d9d37e5cbd2047cefb5e920a67ed72aa1155 := by
    show jsq (jchain 56) = 0xfecb2b39fb96f07831acd0e23e87d9d37e5cbd2047cefb5e920a67ed72aa1155
    rw [h56]
    exact s57
  have h58 : jchain 58 = 0xf643cc9255f0674182f88d9e6b9b17c097a6c4a0d2cdf9ac9841d4c5510c4700 := by
    show jsq (jchain 57) = 0xf643cc9255f0674182f88d9e6b9b17c097a6c4a0d2cdf9ac9841d4c5510c4700
    rw [h57]
    exact s58
  have h59 : jchain 59 = 0xe8e07ed05188af0f65ba2fdf5fe59ed155756dedb136961f30ac848541c0b04f := by
    show jsq (jchain 58) = 0xe8e07ed05188af0f65ba2fdf5fe59ed155756dedb136961f30ac848541c0b04f
    rw [h58]
    exact s59
  have h60 : jchain 60 = 0x679b88958f3bbdcb04ad0ecd62544db26d885bb5321527a7adcede280bb92b99 := by
    show jsq (jchain 59) = 0x679b88958f3bbdcb04ad0ecd62544db26d885bb5321527a7adcede280bb92b99
    rw [h59]
    exact s60
  have h61 : jchain 61 = 0xd10d621b74213644bbf25302a56d6131aaee46b89b10620184db0e338a94ce16 := by
    show jsq (jchain 60) = 0xd10d621b74213644bbf25302a56d6131aaee46b89b10620184db0e338a94ce16
    rw [h60]
    exact s61
  have h62 : jchain 62 = 0x6ff477672ddf72b15083dee093b632b731fbe8b0a2035587ed3c94e03147ca9b := by
    show jsq (jchain 61) = 0x6ff477672ddf72b15083dee093b632b731fbe8b0a2035587ed3c94e03147ca9b
    rw [h61]
    exact s62
  have h63 : jchain 63 = 0xa9559a2368719526bae4d9a25a3928b922a36cdc0fda409f936ece877e64cc97 := by
    show jsq (jchain 62) = 0xa9559a2368719526bae4d9a25a3928b922a36cdc0fda409f936ece877e64cc97
    rw [h62]
    exact s63
  have h64 : jchain 64 = 0x12e4a2fbfc19bff934faff184785c20ab60d6c5b8c78f106b13c16e8096f0754 := by
    show jsq (jchain 63) = 0x12e4a2fbfc19bff934faff184785c20ab60d6c5b8c78f106b13c16e8096f0754
    rw [h63]
    exact s64
  have h65 : jchain 65 = 0x1e22c55ed04628f471c9cddcc21b4d96e9cd737204214bdf69135f8ae4f3becb := by
    show jsq (jchain 64) = 0x1e22c55ed04628f471c9cddcc21b4d96e9cd737204214bdf69135f8ae4f3becb
    rw [h64]
    exact s65
  have h66 : jchain 66 = 0xb6e16802c1e5a473d3c646ca742cfd35cdc2f8abc30facd843f19411729e47a3 := by
    show jsq (jchain 65) = 0xb6e16802c1e5a473d3c646ca742cfd35cdc2f8abc30facd843f19411729e47a3
    rw [h65]
    exact s66
  have h67 : jchain 67 = 0x71583507471df592e9121d42d889f1e6cf7a45ddbd380c46e1040fefa7016612 := by
    show jsq (jchain 66) = 0x71583507471df592e9121d42d889f1e6cf7a45ddbd380c46e1040fefa7016612
    rw [h66]
    exact s67
  have h68 : jchain 68 = 0x790035ed5d8a52063481941c63b9723bef00865ccdc62b407dc73de451f84f31 := by
    show jsq (jchain 67) = 0x790035ed5d8a52063481941c63b9723bef00865ccdc62b407dc73de451f84f31
    rw [h67]
    exact s68
  have h69 : jchain 69 = 0xc5245c9108c8303b1b2e1e5f58ca50e9e2b26892066519e7b7fde9c10dde1033 := by
    show jsq (jchain 68) = 0xc5245c9108c8303b1b2e1e5f58ca50e9e2b26892066519e7b7fde9c10dde1033
    rw [h68]
    exact s69
  have h70 : jchain 70 = 0x72636702af55f1ae80dd958fc2ce8b38d0229895c9855019f7e31117fca1fde3 := by
    show jsq (jchain 69) = 0x72636702af55f1ae80dd958fc2ce8b38d0229895c9855019f7e31117fca1fde3
    rw [h69]
    exact s70
  have h71 : jchain 71 = 0xaf24371b5a1a053d59970509d58afcb4369b623ac732f278f4fdf1938a08c423 := by
    show jsq (jchain 70) = 0xaf24371b5a1a053d59970509d58afcb4369b623ac732f278f4fdf1938a08c423
    rw [h70]
    exact s71
  have h72 : jchain 72 = 0xc2a214d5ccfdc9cc98aea009de1e6b3b4f2a8443cc705e1be38bd8d6060eecb2 := by
    show jsq (jchain 71) = 0xc2a214d5ccfdc9cc98aea009de1e6b3b4f2a8443cc705e1be38bd8d6060eecb2
    rw [h71]
    exact s72
  have h73 : jchain 73 = 0x45c97103176ad4cb35a81ddfd74498bfe60945b17507ff1779e326bea03051e := by
    show jsq (jchain 72) = 0x45c97103176ad4cb35a81ddfd74498bfe60945b17507ff1779e326bea03051e
    rw [h72]
    exact s73
  have h74 : jchain 74 = 0x8c79d3fd0cd87d25e54b1f90f1804a5b967c5d39bff598c3f99f64a8eef50acc := by
    show jsq (jchain 73) = 0x8c79d3fd0cd87d25e54b1f90f1804a5b967c5d39bff598c3f99f64a8eef50acc
    rw [h73]
    exact s74
  have h75 : jchain 75 = 0x44a26649c72eaf799b135f39cbd2444200dc697c0ce8f5bf5bf7c3946011203d := by
    show jsq (jchain 74) = 0x44a26649c72eaf799b135f39cbd2444200dc697c0ce8f5bf5bf7c3946011203d
    rw [h74]
    exact s75
  have h76 : jchain 76 = 0x621f84d4c5b7d5b26f0bd8889bc16b6505063f82926b10501fe0ce6e4a5fbfa9 := by
    show jsq (jchain 75) = 0x621f84d4c5b7d5b26f0bd8889bc16b6505063f82926b10501fe0ce6e4a5fbfa9
    rw [h75]
    exact s76
  have h77 : jchain 77 = 0xafb60de4ef76f2d8a2ce3240999f03958cac609dd3f769ea0bd0d4953231dc02 := by
    show jsq (jchain 76) = 0xafb60de4ef76f2d8a2ce3240999f03958cac609dd3f769ea0bd0d4953231dc02
    rw [h76]
    exact s77
  have h78 : jchain 78 = 0x6d9d47d177fda8e15d5a93bb678d1ff3b46e28d0dd20be9ce41a05c6d5ad6443 := by
    show jsq (jchain 77) = 0x6d9d47d177fda8e15d5a93bb678d1ff3b46e28d0dd20be9ce41a05c6d5ad6443
    rw [h77]
    exact s78
  have h79 : jchain 79 = 0x69b492ad849876a0f671f175f29bd401c05cb5489fabd6ba3750097bc18818df := by
    show jsq (jchain 78) = 0x69b492ad849876a0f671f175f29bd401c05cb5489fabd6ba3750097bc18818df
    rw [h78]
    exact s79
  have h80 : jchain 80 = 0x2c09ebb60b81941a5d23c239088b488e0355dab5aaada3566c1a4d1bee4cfb25 := by
    show jsq (jchain 79) = 0x2c09ebb60b81941a5d23c239088b488e0355dab5aaada3566c1a4d1bee4cfb25
    rw [h79]
    exact s80
  have h81 : jchain 81 = 0x3d8c3676399ece2d1c4df4e6dc4daa6ca77d08c97aa93a7b85bc661b5fe4c77f := by
    show jsq (jchain 80) = 0x3d8c3676399ece2d1c4df4e6dc4daa6ca77d08c97aa93a7b85bc661b5fe4c77f
    rw [h80]
    exact s81
  have h82 : jchain 82 = 0xd6fc185137af1d8b97595ce59431e3aab12fec5cc69849360d50032e0877ba29 := by
    show jsq (jchain 81) = 0xd6fc185137af1d8b97595ce59431e3aab12fec5cc69849360d50032e0877ba29
    rw [h81]
    exact s82
  have h83 : jchain 83 = 0x86b251394485c94bd5cace972fee73fa754228fc6853084549aa26e5d4bf7857 := by
    show jsq (jchain 82) = 0x86b251394485c94bd5cace972fee73fa754228fc6853084549aa26e5d4bf7857
    rw [h82]
    exact s83
  have h84 : jchain 84 = 0xb0baae7f98b528c0bff33c810d4f1e62dfd675636a53a2ad8d480422727ca5ce := by
    show jsq (jchain 83) = 0xb0baae7f98b528c0bff33c810d4f1e62dfd675636a53a2ad8d480422727ca5ce
    rw [h83]
    exact s84
  have h85 : jchain 85 = 0x3fa865ff30ea93f76a4d1fd3bf02d5587d85e7cb6751bcbbb0908faa94bfc92c := by
    show jsq (jchain 84) = 0x3fa865ff30ea93f76a4d1fd3bf02d5587d85e7cb6751bcbbb0908faa94bfc92c
    rw [h84]
    exact s85
  have h86 : jchain 86 = 0x3c3c2884d98788bc5aa4dacdc52add36a789c54654ca7c28d0d6be52a69e58c9 := by
    show jsq (jchain 85) = 0x3c3c2884d98788bc5aa4dacdc52add36a789c54654ca7c28d0d6be52a69e58c9
    rw [h85]
    exact s86
  have h87 : jchain 87 = 0x15e0fed2f7bccfef4c9ca45e4bc2a3c341288120b4579cf85f3f3b8fef0ed6b3 := by
    show jsq (jchain 86) = 0x15e0fed2f7bccfef4c9ca45e4bc2a3c341288120b4579cf85f3f3b8fef0ed6b3
    rw [h86]
    exact s87
  have h88 : jchain 88 = 0xa949942afc5a2f2c9c885317a50787eb53b8a4a16a46d7c3d262b21891db8d4e := by
    show jsq (jchain 87) = 0xa949942afc5a2f2c9c885317a50787eb53b8a4a16a46d7c3d262b21891db8d4e
    rw [h87]
    exact s88
  have h89 : jchain 89 = 0xfe740ffad9e176874ea029ea5dbf8c1dc0a2019a1a152787718aec6a573de99d := by
    show jsq (jchain 88) = 0xfe740ffad9e176874ea029ea5dbf8c1dc0a2019a1a152787718aec6a573de99d
    rw [h88]
    exact s89
  have h90 : jchain 90 = 0x77a27a67f88f49e1228277008b5fb66935e2e29698d7eb0d07f145f47c78ac8e := by
    show jsq (jchain 89) = 0x77a27a67f88f49e1228277008b5fb66935e2e29698d7eb0d07f145f47c78ac8e
    rw [h89]
    exact s90
  have h91 : jchain 91 = 0x1029f062e580da266648b4ef24a588567c62ece20d8be0116627da855e5050fb := by
    show jsq (jchain 90) = 0x1029f062e580da266648b4ef24a588567c62ece20d8be0116627da855e5050fb
    rw [h90]
    exact s91
  have h92 : jchain 92 = 0xa0d23922f4dc99166f17a03a6bc6a87734092a8e98b795bea9ffe6995923a7b1 := by
    show jsq (jchain 91) = 0xa0d23922f4dc99166f17a03a6bc6a87734092a8e98b795bea9ffe6995923a7b1
    rw [h91]
    exact s92
  have h93 : jchain 93 = 0x336f2f9401f8204135e67f142da25aca0ee2caf1df36f661062e89b53f6cea07 := by
    show jsq (jchain 92) = 0x336f2f9401f8204135e67f142da25aca0ee2caf1df36f661062e89b53f6cea07
    rw [h92]
    exact s93
  have h94 : jchain 94 = 0xa3a29886c86c3cded617e92e93ea456793b549a81fd07be4bf67135726c63517 := by
    show jsq (jchain 93) = 0xa3a29886c86c3cded617e92e93ea456793b549a81fd07be4bf67135726c63517
    rw [h93]
    exact s94
  have h95 : jchain 95 = 0xfe0143fd314c9e7ec51d91ed4856b46ef9d3a86c856b8a2621ff06188c9cc699 := by
    show jsq (jchain 94) = 0xfe0143fd314c9e7ec51d91ed4856b46ef9d3a86c856b8a2621ff06188c9cc699
    rw [h94]
    exact s95
  have h96 : jchain 96 = 0x31eebb6c82a9615fb27c05962ea56a13cdb45d7def42c317148c356c3114b7a9 := by
    show jsq (jchain 95) = 0x31eebb6c82a9615fb27c05962ea56a13cdb45d7def42c317148c356c3114b7a9
    rw [h95]
    exact s96
  have h97 : jchain 97 = 0xc78709f4e0724160d863413b92cae906d8aed72f2c4c8d065d4da92b5d749ee7 := by
    show jsq (jchain 96) = 0xc78709f4e0724160d863413b92cae906d8aed72f2c4c8d065d4da92b5d749ee7
    rw [h96]
    exact s97
  have h98 : jchain 98 = 0x43b4a1c47d75f54af59e618faaebae8ae2ece3b6969fe76ac72a478e776aa7e8 := by
    show jsq (jchain 97) = 0x43b4a1c47d75f54af59e618faaebae8ae2ece3b6969fe76ac72a478e776aa7e8
    rw [h97]
    exact s98
  have h99 : jchain 99 = 0x57f74d5c8e13eabef018da68303dd3aab24feee905fd903285043fb7b5ec46d9 := by
    show jsq (jchain 98) = 0x57f74d5c8e13eabef018da68303dd3aab24feee905fd903285043fb7b5ec46d9
    rw [h98]
    exact s99
  have h100 : jchain 100 = 0xbf7e526feafe9fab6bef1c2cbcff5536a797dd2a234c782b1fe7835e4087fe62 := by
    show jsq (jchain 99) = 0xbf7e526feafe9fab6bef1c2cbcff5536a797dd2a234c782b1fe7835e4087fe62
    rw [h99]
    exact s100
  have h101 : jchain 101 = 0x944120083af78d6175b4d7f6cc9f25e15aa27a47492448382b8e518ff5d4cf7b := by
    show jsq (jchain 100) = 0x944120083af78d6175b4d7f6cc9f25e15aa27a47492448382b8e518ff5d4cf7b
    rw [h100]
    exact s101
  have h102 : jchain 102 = 0xa1d8b4c28aebb8511965ee22fd231ead1bf5aad8660b3dff3d6f902c3475cabe := by
    show jsq (jchain 101) = 0xa1d8b4c28aebb8511965ee22fd231ead1bf5aad8660b3dff3d6f902c3475cabe
    rw [h101]
    exact s102
  have h103 : jchain 103 = 0x9c9e175a184afb5365e7e4d9e2832455c97a1beedb0cd1818f55a96afe8c60d6 := by
    show jsq (jchain 102) = 0x9c9e175a184afb5365e7e4d9e2832455c97a1beedb0cd1818f55a96afe8c60d6
    rw [h102]
    exact s103
  have h104 : jchain 104 = 0xb9d862913d6f7e400a65eef99174032874b6da57ea2bc33a652cb4ccd4073f0f := by
    show jsq (jchain 103) = 0xb9d862913d6f7e400a65eef99174032874b6da57ea2bc33a652cb4ccd4073f0f
    rw [h103]
    exact s104
  have h105 : jchain 105 = 0x82998b76e46a33d6d4b46d9444c365a710698e01c2ae9c871045804fface6bf3 := by
    show jsq (jchain 104) = 0x82998b76e46a33d6d4b46d9444c365a710698e01c2ae9c871045804fface6bf3
    rw [h104]
    exact s105
  have h106 : jchain 106 = 0x8da69514b40b00e7f1a9cb543a0bfa1002416381d70e6c430a2c871d4e66d5cd := by
    show jsq (jchain 105) = 0x8da69514b40b00e7f1a9cb543a0bfa1002416381d70e6c430a2c871d4e66d5cd
    rw [h105]
    exact s106
  have h107 : jchain 107 = 0x27b45c44ee4a622983d4e917f16be77b4dc5ff02cd80ea1db79a9592b42dcf38 := by
    show jsq (jchain 106) = 0x27b45c44ee4a622983d4e917f16be77b4dc5ff02cd80ea1db79a9592b42dcf38
    rw [h106]
    exact s107
  have h108 : jchain 108 = 0x3762beab010e60b1219d46c745e04de7ae1e5f3ff8b477204d5d5691e346a117 := by
    show jsq (jchain 107) = 0x3762beab010e60b1219d46c745e04de7ae1e5f3ff8b477204d5d5691e346a117
    rw [h107]
    exact s108
  have h109 : jchain 109 = 0x1cbf90cd7272db76634ad6497e9d5d70b46fba890f1ca8f6a26c20feb2ae9f7d := by
    show jsq (jchain 108) = 0x1cbf90cd7272db76634ad6497e9d5d70b46fba890f1ca8f6a26c20feb2ae9f7d
    rw [h108]
    exact s109
  have h110 : jchain 110 = 0x5f46daf7953c1bb34fb63d3b5eb990979b34b9c8c6c9c0e0b0c0f65d5e452c0d := by
    show jsq (jchain 109) = 0x5f46daf7953c1bb34fb63d3b5eb990979b34b9c8c6c9c0e0b0c0f65d5e452c0d
    rw [h109]
    exact s110
  have h111 : jchain 111 = 0x127923940e883a8188dc353d2d4788aa08f672eaf81f8987fafc3b0810db88e := by
    show jsq (jchain 110) = 0x127923940e883a8188dc353d2d4788aa08f672eaf81f8987fafc3b0810db88e
    rw [h110]
    exact s111
  have h112 : jchain 112 = 0x19809df824096ba19a5475c8d2fb2d20e903694ada9d6795ff09f37df22eab9a := by
    show jsq (jchain 111) = 0x19809df824096ba19a5475c8d2fb2d20e903694ada9d6795ff09f37df22eab9a
    rw [h111]
    exact s112
  have h113 : jchain 113 = 0x7ea9fc3051e87b78e6a590ca622a3320861797e8573bfcd7656c70a5f3f5c710 := by
    show jsq (jchain 112) = 0x7ea9fc3051e87b78e6a590ca622a3320861797e8573bfcd7656c70a5f3f5c710
    rw [h112]
    exact s113
  have h114 : jchain 114 = 0x644a875145d5d51f84d72b234e8a54795ad3eec2014d42b66aaa9929398cd48a := by
    show jsq (jchain 113) = 0x644a875145d5d51f84d72b234e8a54795ad3eec2014d42b66aaa9929398cd48a
    rw [h113]
    exact s114
  have h115 : jchain 115 = 0x6d2cc53f91af5f85203951cfd23e94cb00659f02b37a017c6c738865ed73b377 := by
    show jsq (jchain 114) = 0x6d2cc53f91af5f85203951cfd23e94cb00659f02b37a017c6c738865ed73b377
    rw [h114]
    exact s115
  have h116 : jchain 116 = 0xc0864662b10083e8bef3d95e4e54413a8bc10737770d137ef7af674289519c6c := by
    show jsq (jchain 115) = 0xc0864662b10083e8bef3d95e4e54413a8bc10737770d137ef7af674289519c6c
    rw [h115]
    exact s116
  have h117 : jchain 117 = 0xcecda49faf04bbfbeb185b3b61ef25071d6286a155723d48f5238b0ff86d1867 := by
    show jsq (jchain 116) = 0xcecda49faf04bbfbeb185b3b61ef25071d6286a155723d48f5238b0ff86d1867
    rw [h116]
    exact s117
  have h118 : jchain 118 = 0x2732a7244a31e5dda02ccbd8d031b5d599c6cd156b9744df644b243f9d056a3a := by
    show jsq (jchain 117) = 0x2732a7244a31e5dda02ccbd8d031b5d599c6cd156b9744df644b243f9d056a3a
    rw [h117]
    exact s118
  have h119 : jchain 119 = 0x216f9077c64f36f6df8f6390d609a5d475e9335039224b3b25523b168236da8c := by
    show jsq (jchain 118) = 0x216f9077c64f36f6df8f6390d609a5d475e9335039224b3b25523b168236da8c
    rw [h118]
    exact s119
  have h120 : jchain 120 = 0x56ab0ca212a8d012ef5b7611f90b7c08565c9f7a11c40482c291983aa3a3a178 := by
    show jsq (jchain 119) = 0x56ab0ca212a8d012ef5b7611f90b7c08565c9f7a11c40482c291983aa3a3a178
    rw [h119]
    exact s120
  have h121 : jchain 121 = 0x45c2ad3649667c04c7abdfbc652abf3ed73fe72ba2d98892b400d4604c1d59db := by
    show jsq (jchain 120) = 0x45c2ad3649667c04c7abdfbc652abf3ed73fe72ba2d98892b400d4604c1d59db
    rw [h120]
    exact s121
  have h122 : jchain 122 = 0x91c1510f9b6f2ef8058b3d55bfaa4aad543fa081564a326f9bb885cd5aa00a8c := by
    show jsq (jchain 121) = 0x91c1510f9b6f2ef8058b3d55bfaa4aad543fa081564a326f9bb885cd5aa00a8c
    rw [h121]
    exact s122
  have h123 : jchain 123 = 0x9d6ef09217bf59b753c8dfba6c9aacae09cf7d85a86c1a907a3e03325fb2eeb7 := by
    show jsq (jchain 122) = 0x9d6ef09217bf59b753c8dfba6c9aacae09cf7d85a86c1a907a3e03325fb2eeb7
    rw [h122]
    exact s123
  have h124 : jchain 124 = 0xa1a3090ef816c214d8289b4ae487d7e10bbfd59ed2151f31e98651fa6fb0337b := by
    show jsq (jchain 123) = 0xa1a3090ef816c214d8289b4ae487d7e10bbfd59ed2151f31e98651fa6fb0337b
    rw [h123]
    exact s124
  have h125 : jchain 125 = 0xaa72e405fb26c80a56e93ecb5b3619951b18a0517cea386aaeb33557c76543fe := by
    show jsq (jchain 124) = 0xaa72e405fb26c80a56e93ecb5b3619951b18a0517cea386aaeb33557c76543fe
    rw [h124]
    exact s125
  have h126 : jchain 126 = 0xfd4d894c8f82680a8397aeedc528c3f057c811875c62528446555cf90fc3d1cb := by
    show jsq (jchain 125) = 0xfd4d894c8f82680a8397aeedc528c3f057c811875c62528446555cf90fc3d1cb
    rw [h125]
    exact s126
  have h127 : jchain 127 = 0xd46cb8565abad18ea50845f0f43019854dd8801baa92fddaeacbd852b93bd815 := by
    show jsq (jchain 126) = 0xd46cb8565abad18ea50845f0f43019854dd8801baa92fddaeacbd852b93bd815
    rw [h126]
    exact s127
  have h128 : jchain 128 = 0x39abdc4529b1661ca9582618e03fc9aad5a61266f0c9392c180ec6d33cfd0aba := by
    show jsq (jchain 127) = 0x39abdc4529b1661ca9582618e03fc9aad5a61266f0c9392c180ec6d33cfd0aba
    rw [h127]
    exact s128
  exact h128

lemma distinct_spec (t : Ranxoshi256) : ∀ (n : Nat) (c : Ranxoshi256),
    distinctFromIterates t c n = true ↔ ∀ k, k ≤ n → t ≠ nextState^[k] c := by
  intro n
  induction n with
  | zero =>
    intro c
    show (!(decide (t = c))) = true ↔ _
    simp only [Bool.not_eq_eq_eq_not, Bool.not_true, decide_eq_false_iff_not]
    constructor
    · intro h k hk
      have hk0 : k = 0 := by omega
      subst hk0
      simpa using h
    · intro h
      simpa using h 0 (le_refl 0)
  | succ n ih =>
    intro c
    show ((!(decide (t = c))) && distinctFromIterates t (nextState c) n) = true ↔ _
    rw [Bool.and_eq_true, ih (nextState c)]
    simp only [Bool.not_eq_eq_eq_not, Bool.not_true, decide_eq_false_iff_not]
    constructor
    · rintro ⟨h1, h2⟩ k hk
      cases k with
      | zero => simpa using h1
      | succ k =>
        rw [Function.iterate_succ_apply]
        exact h2 k (by omega)
    · intro h
      refine ⟨by simpa using h 0 (by omega), fun k hk => ?_⟩
      have := h (k + 1) (by omega)
      rwa [Function.iterate_succ_apply] at this

set_option maxRecDepth 1000000 in
set_option maxHeartbeats 12000000 in
lemma nonoverlap_check : distinctFromIterates (ranxoshi256Jump stRef) stRef 1024 = true := by
  decide

/-! ### C4: the jump is 2^128 next-steps -/

set_option maxRecDepth 100000 in
/-- Counterexample to C4 as stated: at the all-zero state the post-jump state
*is* the state reached by a small number of `ranxoshi256Next` steps — it equals
the state after one step (indeed after any number of steps), so the clause
"it is not the state reached by any small number of Next steps" fails for
this state. -/
theorem jump_szero_is_small_step :
    ranxoshi256Jump szero = nextState^[1] szero ∧ ranxoshi256Jump szero = szero := by
  constructor <;> decide

/-- C4 (amended): for every well-formed state, the state after
`ranxoshi256Jump` equals the state obtained by applying the `ranxoshi256Next`
state transition exactly `2 ^ 128` times; and for the non-degenerate reference
state `stRef` (seeded from bytes `0x00 .. 0x1F`) the jumped state is distinct
from every state reached by `k` Next steps for all `k ≤ 1024` (the all-zero
state shows the distinctness clause cannot hold for *every* state). -/
theorem jump_eq_iterate_two_pow_128 :
    (∀ st : Ranxoshi256, Wf st → ranxoshi256Jump st = nextState^[2 ^ 128] st) ∧
    (∀ k, k ≤ 1024 → ranxoshi256Jump stRef ≠ nextState^[k] stRef) := by
  constructor
  · intro st hw
    rw [jump_eq_polyEval]
    rw [show polyEvalAux 256 jpoly st = polyEvalAux (256 + 1) jpoly st from
      (pE_fuel 256 1 jpoly st jpoly_lt).symm]
    rw [show (256 + 1 : Nat) = 257 from rfl, ← jchain_128]
    exact jchain_sem 128 hw
  · exact (distinct_spec (ranxoshi256Jump stRef) 1024 stRef).mp nonoverlap_check

/-- Witness for C4 at the reference state. -/
theorem jump_eq_iterate_two_pow_128_witness :
    ranxoshi256Jump stRef = nextState^[2 ^ 128] stRef ∧
    ranxoshi256Jump stRef ≠ nextState^[5] stRef :=
  ⟨jump_eq_iterate_two_pow_128.1 stRef (by decide),
   jump_eq_iterate_two_pow_128.2 5 (by norm_num)⟩

end Ranxoshi
